import Mathlib

/-!
# FAQ backend: transport, service and storage layers

A shallow embedding of `internal/domain`, `internal/service`, `internal/repository`
and `internal/api` of the FAQ accordion backend, followed by theorems about it.

Conventions of the embedding:

* a Go `(T, error)` result is an `Except Error T`; a bare `error` result is an
  `Option Error` (`none` is `nil`);
* a method that talks to a collaborator takes the state of that collaborator and
  returns the new state next to its result;
* Go strings are taken to be valid UTF-8 and are Lean strings; Go `int` is `Int`
  (no arithmetic is performed on positions);
* what the libraries and the database decide on their own (identifier parsing,
  JSON decoding, driver failures, column defaults) is a parameter.
-/

/-! ## Library: `strings`, `errors`, `uuid` -/

namespace unicode

/-- Go `unicode.IsSpace`: the Latin-1 spaces and the code points with the
White_Space property. -/
def IsSpace (c : Char) : Bool :=
  c == '\t' || c == '\n' || c == '\x0b' || c == '\x0c' || c == '\r' || c == ' '
    || c.toNat == 0x85 || c.toNat == 0xA0 || c.toNat == 0x1680
    || (0x2000 ≤ c.toNat && c.toNat ≤ 0x200A)
    || c.toNat == 0x2028 || c.toNat == 0x2029 || c.toNat == 0x202F
    || c.toNat == 0x205F || c.toNat == 0x3000

end unicode

namespace strings

/-- Go `strings.TrimSpace`: the string without its leading and trailing white space. -/
def TrimSpace (s : String) : String :=
  String.mk ((s.data.dropWhile unicode.IsSpace).reverse.dropWhile unicode.IsSpace).reverse

/-- Go `strings.HasPrefix`. -/
def HasPrefix (s pre : String) : Bool :=
  pre.data.isPrefixOf s.data

/-- Go `strings.TrimPrefix`: `s` without the leading `pre`, or `s` itself. -/
def TrimPrefix (s pre : String) : String :=
  if HasPrefix s pre then String.mk (s.data.drop pre.data.length) else s

/-- Whether some suffix of `l` starts with `sub`. -/
def containsList (sub : List Char) : List Char → Bool
  | [] => sub.isPrefixOf []
  | c :: cs => sub.isPrefixOf (c :: cs) || containsList sub cs

/-- Go `strings.Contains`. -/
def Contains (s sub : String) : Bool :=
  containsList sub.data s.data

end strings

namespace uuid

/-- Go `uuid.UUID`, sixteen bytes, held as the number they spell. -/
structure UUID where
  value : Nat
deriving DecidableEq, Repr

/-- Go `uuid.Nil`, the all-zero identifier. -/
def Nil : UUID := ⟨0⟩

end uuid

/-- An error raised by a library: `database/sql` and its driver, `uuid`, `json`. -/
inductive LibError where
  /-- Go `sql.ErrNoRows`. -/
  | ErrNoRows
  /-- Any other library error, with its text. -/
  | New (text : String)
deriving DecidableEq, Repr

/-- What the `uuid` library computes: `uuid.Parse` and `UUID.String`. -/
structure uuid.Lib where
  Parse : String → Except LibError uuid.UUID
  String : uuid.UUID → String

/-- Equality of results is decidable when equality of errors and of values is. -/
instance instDecidableEqExcept {ε α : Type} [DecidableEq ε] [DecidableEq α] :
    DecidableEq (Except ε α)
  | Except.ok a, Except.ok b =>
    if h : a = b then isTrue (by rw [h]) else isFalse (fun h1 => h (Except.ok.inj h1))
  | Except.error a, Except.error b =>
    if h : a = b then isTrue (by rw [h]) else isFalse (fun h1 => h (Except.error.inj h1))
  | Except.ok _, Except.error _ => isFalse (fun h => Except.noConfusion h)
  | Except.error _, Except.ok _ => isFalse (fun h => Except.noConfusion h)

/-- Go `err.Error()` of a library error. -/
def LibError.errorText : LibError → String
  | .ErrNoRows => "sql: no rows in result set"
  | .New text => text

/-- Go `errors.Is(err, sql.ErrNoRows)` for a library error. -/
def LibError.IsNoRows : LibError → Bool
  | .ErrNoRows => true
  | .New _ => false

namespace domain

/-- The Go `error` values that travel through the three layers. -/
inductive Error where
  /-- Go `domain.ErrNotFound`. -/
  | ErrNotFound
  /-- Go `domain.ValidationError{Message}`. -/
  | ValidationError (Message : String)
  /-- A library error. -/
  | Lib (err : LibError)
  /-- Go `fmt.Errorf(label + ": %w", err)`. -/
  | Errorf (label : String) (err : Error)
deriving DecidableEq, Repr

/-- Go `err.Error()`. -/
def Error.errorText : Error → String
  | .ErrNotFound => "not found"
  | .ValidationError m => m
  | .Lib e => e.errorText
  | .Errorf label e => label ++ ": " ++ e.errorText

/-- Go `errors.Is(err, domain.ErrNotFound)`: looks through the `%w` chain. -/
def Error.IsNotFound : Error → Bool
  | .ErrNotFound => true
  | .ValidationError _ => false
  | .Lib _ => false
  | .Errorf _ e => e.IsNotFound

/-- Go `errors.As(err, &ve)` for `ve domain.ValidationError`: the message of the
first validation error in the `%w` chain. -/
def Error.AsValidation : Error → Option String
  | .ErrNotFound => none
  | .ValidationError m => some m
  | .Lib _ => none
  | .Errorf _ e => e.AsValidation

/-- Go `domain.FAQ`; times are instants counted from the zero `time.Time`. -/
structure FAQ where
  ID : uuid.UUID
  Title : String
  Content : String
  Position : Int
  IsActive : Bool
  CreatedAt : Nat
  UpdatedAt : Nat
deriving DecidableEq, Repr

/-- Go `domain.CreateFAQRequest`; a nil `*bool` is `none`. -/
structure CreateFAQRequest where
  Title : String
  Content : String
  Position : Int
  IsActive : Option Bool
deriving DecidableEq, Repr

/-- Go `domain.UpdateFAQRequest`. -/
structure UpdateFAQRequest where
  Title : String
  Content : String
  Position : Int
  IsActive : Option Bool
deriving DecidableEq, Repr

/-- Go `domain.CreateFAQInput`. -/
structure CreateFAQInput where
  Title : String
  Content : String
  Position : Int
  IsActive : Bool
deriving DecidableEq, Repr

/-- Go `domain.UpdateFAQInput`. -/
structure UpdateFAQInput where
  Title : String
  Content : String
  Position : Int
  IsActive : Bool
deriving DecidableEq, Repr

/-- Go `domain.FAQListItemResponse`. -/
structure FAQListItemResponse where
  ID : uuid.UUID
  Title : String
  Content : String
  Position : Int
deriving DecidableEq, Repr

/-- Go `domain.FAQFullResponse`. -/
structure FAQFullResponse where
  ID : uuid.UUID
  Title : String
  Content : String
  Position : Int
  IsActive : Bool
deriving DecidableEq, Repr

/-- The five methods that both Go interfaces `service.FAQRepository` and
`api.FAQService` declare, over a collaborator with state `σ`. -/
structure FAQOps (σ : Type) where
  ListActive : σ → Except Error (List FAQ) × σ
  GetByID : uuid.UUID → σ → Except Error FAQ × σ
  Create : CreateFAQInput → σ → Except Error FAQ × σ
  Update : uuid.UUID → UpdateFAQInput → σ → Except Error FAQ × σ
  Delete : uuid.UUID → σ → Option Error × σ

/-- One call of a method of `FAQOps`, with its arguments. -/
inductive Call where
  | ListActive
  | GetByID (id : uuid.UUID)
  | Create (input : CreateFAQInput)
  | Update (id : uuid.UUID) (input : UpdateFAQInput)
  | Delete (id : uuid.UUID)
deriving DecidableEq, Repr

/-- The same collaborator, writing down every call it receives before serving it. -/
def recording {σ : Type} (ops : FAQOps σ) : FAQOps (σ × List Call) where
  ListActive := fun s => ((ops.ListActive s.1).1, ((ops.ListActive s.1).2, s.2 ++ [Call.ListActive]))
  GetByID := fun id s => ((ops.GetByID id s.1).1, ((ops.GetByID id s.1).2, s.2 ++ [Call.GetByID id]))
  Create := fun input s =>
    ((ops.Create input s.1).1, ((ops.Create input s.1).2, s.2 ++ [Call.Create input]))
  Update := fun id input s =>
    ((ops.Update id input s.1).1, ((ops.Update id input s.1).2, s.2 ++ [Call.Update id input]))
  Delete := fun id s => ((ops.Delete id s.1).1, ((ops.Delete id s.1).2, s.2 ++ [Call.Delete id]))

end domain

/-! ## `internal/service` -/

namespace service

open domain

/-- Go interface `service.FAQRepository`. -/
abbrev FAQRepository (σ : Type) := FAQOps σ

/-- Go `service.validateFAQInput`. -/
def validateFAQInput (title content : String) (position : Int) : Option Error :=
  if strings.TrimSpace title = "" then
    some (Error.ValidationError "title is required")
  else if strings.TrimSpace content = "" then
    some (Error.ValidationError "content is required")
  else if position ≤ 0 then
    some (Error.ValidationError "position must be greater than 0")
  else
    none

namespace FAQService

variable {σ : Type}

/-- Go `(*FAQService).ListActive`. -/
def ListActive (repo : FAQRepository σ) (s : σ) : Except Error (List FAQ) × σ :=
  match repo.ListActive s with
  | (Except.error err, s1) => (Except.error err, s1)
  | (Except.ok items, s1) => (Except.ok items, s1)

/-- Go `(*FAQService).GetByID`. -/
def GetByID (repo : FAQRepository σ) (id : uuid.UUID) (s : σ) : Except Error FAQ × σ :=
  if id = uuid.Nil then
    (Except.error (Error.ValidationError "id is required"), s)
  else
    match repo.GetByID id s with
    | (Except.error err, s1) => (Except.error err, s1)
    | (Except.ok out, s1) => (Except.ok out, s1)

/-- Go `(*FAQService).Create`. -/
def Create (repo : FAQRepository σ) (input : CreateFAQInput) (s : σ) : Except Error FAQ × σ :=
  match validateFAQInput input.Title input.Content input.Position with
  | some err => (Except.error err, s)
  | none =>
    match repo.Create input s with
    | (Except.error err, s1) => (Except.error err, s1)
    | (Except.ok out, s1) => (Except.ok out, s1)

/-- Go `(*FAQService).Update`. -/
def Update (repo : FAQRepository σ) (id : uuid.UUID) (input : UpdateFAQInput) (s : σ) :
    Except Error FAQ × σ :=
  if id = uuid.Nil then
    (Except.error (Error.ValidationError "id is required"), s)
  else
    match validateFAQInput input.Title input.Content input.Position with
    | some err => (Except.error err, s)
    | none =>
      match repo.Update id input s with
      | (Except.error err, s1) => (Except.error err, s1)
      | (Except.ok out, s1) => (Except.ok out, s1)

/-- Go `(*FAQService).Delete`. -/
def Delete (repo : FAQRepository σ) (id : uuid.UUID) (s : σ) : Option Error × σ :=
  if id = uuid.Nil then
    (some (Error.ValidationError "id is required"), s)
  else
    match repo.Delete id s with
    | (some err, s1) => (some err, s1)
    | (none, s1) => (none, s1)

end FAQService

/-- Go `service.NewFAQService(repo)`, seen through the interface the transport
layer consumes. -/
def NewFAQService {σ : Type} (repo : FAQRepository σ) : FAQOps σ where
  ListActive := FAQService.ListActive repo
  GetByID := FAQService.GetByID repo
  Create := FAQService.Create repo
  Update := FAQService.Update repo
  Delete := FAQService.Delete repo

end service

/-! ## `database/sql`: the table `faqs` and what the driver may do -/

namespace sql

/-- One row of the table `faqs`, with the columns the statements name. The `id`
is held as the text the driver hands to `Scan`. -/
structure Row where
  id : String
  title : String
  content : String
  position : Int
  is_active : Bool
  created_at : Nat
  updated_at : Nat
deriving DecidableEq, Repr

/-- The database: the rows of `faqs`, in table order. -/
structure DB where
  faqs : List Row
deriving DecidableEq, Repr

/-- What the driver and the database decide on their own during one call of a
repository method: which step fails, and the values of the column defaults. -/
structure Env where
  /-- Failure of `BeginTx`. -/
  beginErr : Option LibError
  /-- Failure of the statement (`QueryContext`, `QueryRowContext`, `ExecContext`). -/
  queryErr : Option LibError
  /-- Failure of `Scan` on a row. -/
  scanErr : Row → Option LibError
  /-- Failure reported by `rows.Err()`. -/
  rowsErr : Option LibError
  /-- Failure of `RowsAffected`. -/
  rowsAffectedErr : Option LibError
  /-- Failure of `Commit`. -/
  commitErr : Option LibError
  /-- The `id` the database gives to an inserted row. -/
  newID : String
  /-- The database clock, `now()`. -/
  now : Nat

/-- The clause `ORDER BY position ASC`. Rows with equal positions keep their
table order, which is one of the orders the database may choose. -/
def orderByPosition (rows : List Row) : List Row :=
  rows.insertionSort (fun a b => a.position ≤ b.position)

/-- Go `QueryRowContext(...).Scan(...)` over the rows a statement returns: the
first row, `sql.ErrNoRows` when there is none, or the failure of the statement
or of the conversion. -/
def scanFirst (env : Env) (rows : List Row) : Except LibError Row :=
  match env.queryErr with
  | some err => Except.error err
  | none =>
    match rows with
    | [] => Except.error LibError.ErrNoRows
    | row :: _ =>
      match env.scanErr row with
      | some err => Except.error err
      | none => Except.ok row

end sql

/-! ## `internal/repository` -/

namespace repository

open domain

/-- Go `repository.validateFAQID`. -/
def validateFAQID (id : uuid.UUID) : Option Error :=
  if id = uuid.Nil then some (Error.ValidationError "id is required") else none

/-- Go `repository.validateFAQInput`. -/
def validateFAQInput (title content : String) (position : Int) : Option Error :=
  if strings.TrimSpace title = "" then
    some (Error.ValidationError "title is required")
  else if strings.TrimSpace content = "" then
    some (Error.ValidationError "content is required")
  else if position ≤ 0 then
    some (Error.ValidationError "position must be greater than 0")
  else
    none

namespace FAQRepository

/-- The loop `for rows.Next()` of `ListActive`: scans each row, parses its id and
appends an entity that holds the four selected columns. -/
def listLoop (lib : uuid.Lib) (env : sql.Env) : List sql.Row → List FAQ → Except Error (List FAQ)
  | [], out => Except.ok out
  | row :: rest, out =>
    match env.scanErr row with
    | some err => Except.error (Error.Errorf "scan faq" (Error.Lib err))
    | none =>
      match lib.Parse row.id with
      | Except.error err => Except.error (Error.Errorf "parse faq id" (Error.Lib err))
      | Except.ok id =>
        listLoop lib env rest
          (out ++ [{ ID := id, Title := row.title, Content := row.content,
                     Position := row.position, IsActive := false,
                     CreatedAt := 0, UpdatedAt := 0 }])

/-- Go `(*FAQRepository).ListActive`:
`SELECT id, title, content, position FROM faqs WHERE is_active = true ORDER BY position ASC`. -/
def ListActive (lib : uuid.Lib) (env : sql.Env) (db : sql.DB) : Except Error (List FAQ) × sql.DB :=
  match env.queryErr with
  | some err => (Except.error (Error.Errorf "list active faqs" (Error.Lib err)), db)
  | none =>
    match listLoop lib env (sql.orderByPosition (db.faqs.filter (fun r => r.is_active))) [] with
    | Except.error err => (Except.error err, db)
    | Except.ok out =>
      match env.rowsErr with
      | some err => (Except.error (Error.Errorf "iterate faqs" (Error.Lib err)), db)
      | none => (Except.ok out, db)

/-- The entity read from a full row, with the parsed id. -/
def faqOfRow (id : uuid.UUID) (row : sql.Row) : FAQ :=
  { ID := id, Title := row.title, Content := row.content, Position := row.position,
    IsActive := row.is_active, CreatedAt := row.created_at, UpdatedAt := row.updated_at }

/-- Go `(*FAQRepository).GetByID`: `SELECT ... FROM faqs WHERE id = $1`. -/
def GetByID (lib : uuid.Lib) (env : sql.Env) (id : uuid.UUID) (db : sql.DB) :
    Except Error FAQ × sql.DB :=
  match validateFAQID id with
  | some err => (Except.error err, db)
  | none =>
    match sql.scanFirst env (db.faqs.filter (fun r => r.id = lib.String id)) with
    | Except.error err =>
      if err.IsNoRows then (Except.error Error.ErrNotFound, db)
      else (Except.error (Error.Errorf "get faq" (Error.Lib err)), db)
    | Except.ok row =>
      match lib.Parse row.id with
      | Except.error err => (Except.error (Error.Errorf "parse faq id" (Error.Lib err)), db)
      | Except.ok parsedID => (Except.ok (faqOfRow parsedID row), db)

/-- Modelled from the spec: the definition of the table `faqs` is not among the
sources; the spec has the database assign the id and equal creation and update
times. This is the row that
`INSERT INTO faqs (title, content, position, is_active) VALUES ...` adds. -/
def insertedRow (env : sql.Env) (input : CreateFAQInput) : sql.Row :=
  { id := env.newID, title := input.Title, content := input.Content,
    position := input.Position, is_active := input.IsActive,
    created_at := env.now, updated_at := env.now }

/-- Go `(*FAQRepository).Create`: one `INSERT ... RETURNING` outside a
transaction, so a statement that succeeded has stored its row whatever `Scan`
and `uuid.Parse` say afterwards. -/
def Create (lib : uuid.Lib) (env : sql.Env) (input : CreateFAQInput) (db : sql.DB) :
    Except Error FAQ × sql.DB :=
  match validateFAQInput input.Title input.Content input.Position with
  | some err => (Except.error err, db)
  | none =>
    match env.queryErr with
    | some err => (Except.error (Error.Errorf "create faq" (Error.Lib err)), db)
    | none =>
      let row := insertedRow env input
      let db1 : sql.DB := { faqs := db.faqs ++ [row] }
      match env.scanErr row with
      | some err => (Except.error (Error.Errorf "create faq" (Error.Lib err)), db1)
      | none =>
        match lib.Parse row.id with
        | Except.error err => (Except.error (Error.Errorf "parse faq id" (Error.Lib err)), db1)
        | Except.ok parsedID => (Except.ok (faqOfRow parsedID row), db1)

/-- The assignment `SET title = $2, content = $3, position = $4, is_active = $5,
updated_at = now()` on one row. -/
def updatedRow (env : sql.Env) (input : UpdateFAQInput) (row : sql.Row) : sql.Row :=
  { row with title := input.Title, content := input.Content, position := input.Position,
             is_active := input.IsActive, updated_at := env.now }

/-- Go `(*FAQRepository).Update`: `UPDATE faqs SET ... WHERE id = $1 RETURNING ...`
inside a transaction; every return before `Commit` succeeds rolls back. -/
def Update (lib : uuid.Lib) (env : sql.Env) (id : uuid.UUID) (input : UpdateFAQInput)
    (db : sql.DB) : Except Error FAQ × sql.DB :=
  match validateFAQID id with
  | some err => (Except.error err, db)
  | none =>
    match validateFAQInput input.Title input.Content input.Position with
    | some err => (Except.error err, db)
    | none =>
      match env.beginErr with
      | some err => (Except.error (Error.Errorf "begin tx" (Error.Lib err)), db)
      | none =>
        let inTx : sql.DB :=
          { faqs := db.faqs.map (fun r => if r.id = lib.String id then updatedRow env input r else r) }
        let returned := (db.faqs.filter (fun r => r.id = lib.String id)).map (updatedRow env input)
        match sql.scanFirst env returned with
        | Except.error err =>
          if err.IsNoRows then (Except.error Error.ErrNotFound, db)
          else (Except.error (Error.Errorf "update faq" (Error.Lib err)), db)
        | Except.ok row =>
          match lib.Parse row.id with
          | Except.error err => (Except.error (Error.Errorf "parse faq id" (Error.Lib err)), db)
          | Except.ok parsedID =>
            match env.commitErr with
            | some err => (Except.error (Error.Errorf "commit tx" (Error.Lib err)), db)
            | none => (Except.ok (faqOfRow parsedID row), inTx)

/-- Go `(*FAQRepository).Delete`: `DELETE FROM faqs WHERE id = $1` inside a
transaction; the affected-row count is read and not used. -/
def Delete (lib : uuid.Lib) (env : sql.Env) (id : uuid.UUID) (db : sql.DB) :
    Option Error × sql.DB :=
  match validateFAQID id with
  | some err => (some err, db)
  | none =>
    match env.beginErr with
    | some err => (some (Error.Errorf "begin tx" (Error.Lib err)), db)
    | none =>
      let inTx : sql.DB := { faqs := db.faqs.filter (fun r => ¬ (r.id = lib.String id)) }
      match env.queryErr with
      | some err => (some (Error.Errorf "delete faq" (Error.Lib err)), db)
      | none =>
        let affected := (db.faqs.filter (fun r => r.id = lib.String id)).length
        match env.rowsAffectedErr with
        | some err => (some (Error.Errorf "delete faq: rows affected" (Error.Lib err)), db)
        | none =>
          match env.commitErr with
          | some err => (some (Error.Errorf "commit tx" (Error.Lib err)), db)
          | none =>
            let _ := affected
            (none, inTx)

end FAQRepository

/-- Go `repository.NewFAQRepository(db)`, as the storage backend of the service. -/
def NewFAQRepository (lib : uuid.Lib) (env : sql.Env) : FAQOps sql.DB where
  ListActive := FAQRepository.ListActive lib env
  GetByID := FAQRepository.GetByID lib env
  Create := FAQRepository.Create lib env
  Update := FAQRepository.Update lib env
  Delete := FAQRepository.Delete lib env

end repository

/-! ## `net/http` and `encoding/json` -/

namespace http

def MethodGet : String := "GET"
def MethodPost : String := "POST"
def MethodPut : String := "PUT"
def MethodDelete : String := "DELETE"

def StatusOK : Nat := 200
def StatusCreated : Nat := 201
def StatusBadRequest : Nat := 400
def StatusNotFound : Nat := 404
def StatusMethodNotAllowed : Nat := 405
def StatusInternalServerError : Nat := 500

/-- The parts of a Go `http.Request` the handler reads: `r.Method`, `r.URL.Path`
and the bytes of `r.Body`. -/
structure Request where
  Method : String
  Path : String
  Body : String
deriving DecidableEq, Repr

end http

namespace json

/-- What a `json.Decoder` with `DisallowUnknownFields` does on a body read
through `http.MaxBytesReader`: the first `Decode` gives an error or a value and
the unread rest; `AtEOF` tells whether a second `Decode` on that rest reports
`io.EOF`. -/
structure Lib (α : Type) where
  Decode : String → Nat → Except LibError (α × String)
  AtEOF : String → Bool

end json

/-! ## `internal/api` -/

namespace api

open domain

/-- The value handed to `writeJSON`, which `json.Encoder` writes as the body. -/
inductive Payload where
  /-- Go `map[string]string{"status": status}`. -/
  | Status (status : String)
  /-- Go `domain.ErrorResponse`. -/
  | ErrorResponse (Error : String)
  /-- Go `domain.MessageResponse`. -/
  | MessageResponse (Message : String)
  /-- Go `domain.DataResponse[[]domain.FAQListItemResponse]`. -/
  | DataList (Data : List FAQListItemResponse)
  /-- Go `domain.DataResponse[domain.FAQFullResponse]`. -/
  | DataFull (Data : FAQFullResponse)
deriving DecidableEq, Repr

/-- What the handler writes to the `http.ResponseWriter`. -/
structure Response where
  contentType : String
  status : Nat
  body : Payload
deriving DecidableEq, Repr

/-- Go `api.writeJSON`. -/
def writeJSON (status : Nat) (v : Payload) : Response :=
  { contentType := "application/json; charset=utf-8", status := status, body := v }

/-- Go `api.writeServiceError`. -/
def writeServiceError (err : Error) : Response :=
  if err.IsNotFound then
    writeJSON http.StatusNotFound (Payload.ErrorResponse "not found")
  else
    match err.AsValidation with
    | some message => writeJSON http.StatusBadRequest (Payload.ErrorResponse message)
    | none => writeJSON http.StatusInternalServerError (Payload.ErrorResponse "internal error")

/-- The constant `maxBytes` of `decodeJSON`, 1 MiB. -/
def maxBytes : Nat := 1 <<< 20

/-- Go `api.decodeJSON`. -/
def decodeJSON {α : Type} (dec : json.Lib α) (r : http.Request) : Except LibError α :=
  match dec.Decode r.Body maxBytes with
  | Except.error err => Except.error err
  | Except.ok (v, rest) =>
    if dec.AtEOF rest then Except.ok v else Except.error (LibError.New "invalid json")

/-- The libraries the handler calls. -/
structure Lib where
  uuid : uuid.Lib
  createJSON : json.Lib CreateFAQRequest
  updateJSON : json.Lib UpdateFAQRequest

/-- Go interface `api.FAQService`. -/
abbrev FAQService (σ : Type) := FAQOps σ

/-- Go `api.Handler`. -/
structure Handler (σ : Type) where
  faqService : FAQService σ

/-- Go `api.NewHandler`. -/
def NewHandler {σ : Type} (faqService : FAQService σ) : Handler σ :=
  { faqService := faqService }

namespace Handler

variable {σ : Type}

/-- Go `(*Handler).handleListFAQs`. -/
def handleListFAQs (h : Handler σ) (_r : http.Request) (s : σ) : Response × σ :=
  match h.faqService.ListActive s with
  | (Except.error _, s1) =>
    (writeJSON http.StatusInternalServerError (Payload.ErrorResponse "internal error"), s1)
  | (Except.ok items, s1) =>
    (writeJSON http.StatusOK (Payload.DataList (items.map (fun it =>
      { ID := it.ID, Title := it.Title, Content := it.Content, Position := it.Position }))), s1)

/-- The full response shape of an entity. -/
def fullResponse (faq : FAQ) : FAQFullResponse :=
  { ID := faq.ID, Title := faq.Title, Content := faq.Content, Position := faq.Position,
    IsActive := faq.IsActive }

/-- Go `(*Handler).handleGetFAQ`. -/
def handleGetFAQ (h : Handler σ) (_r : http.Request) (id : uuid.UUID) (s : σ) : Response × σ :=
  match h.faqService.GetByID id s with
  | (Except.error err, s1) =>
    if err.IsNotFound then
      (writeJSON http.StatusNotFound (Payload.ErrorResponse "not found"), s1)
    else
      (writeJSON http.StatusInternalServerError (Payload.ErrorResponse "internal error"), s1)
  | (Except.ok faq, s1) => (writeJSON http.StatusOK (Payload.DataFull (fullResponse faq)), s1)

/-- Go `(*Handler).handleCreateFAQ`. -/
def handleCreateFAQ (lib : Lib) (h : Handler σ) (r : http.Request) (s : σ) : Response × σ :=
  match decodeJSON lib.createJSON r with
  | Except.error err => (writeJSON http.StatusBadRequest (Payload.ErrorResponse err.errorText), s)
  | Except.ok req =>
    let isActive := match req.IsActive with
      | some b => b
      | none => true
    match h.faqService.Create
        { Title := req.Title, Content := req.Content, Position := req.Position,
          IsActive := isActive } s with
    | (Except.error err, s1) => (writeServiceError err, s1)
    | (Except.ok created, s1) =>
      (writeJSON http.StatusCreated (Payload.DataFull (fullResponse created)), s1)

/-- Go `(*Handler).handleUpdateFAQ`. -/
def handleUpdateFAQ (lib : Lib) (h : Handler σ) (r : http.Request) (id : uuid.UUID) (s : σ) :
    Response × σ :=
  match decodeJSON lib.updateJSON r with
  | Except.error err => (writeJSON http.StatusBadRequest (Payload.ErrorResponse err.errorText), s)
  | Except.ok req =>
    let isActive := match req.IsActive with
      | some b => b
      | none => true
    match h.faqService.Update id
        { Title := req.Title, Content := req.Content, Position := req.Position,
          IsActive := isActive } s with
    | (Except.error err, s1) => (writeServiceError err, s1)
    | (Except.ok updated, s1) =>
      (writeJSON http.StatusOK (Payload.DataFull (fullResponse updated)), s1)

/-- Go `(*Handler).handleDeleteFAQ`. -/
def handleDeleteFAQ (h : Handler σ) (_r : http.Request) (id : uuid.UUID) (s : σ) : Response × σ :=
  match h.faqService.Delete id s with
  | (some err, s1) =>
    if err.IsNotFound then
      (writeJSON http.StatusNotFound (Payload.ErrorResponse "not found"), s1)
    else
      (writeJSON http.StatusInternalServerError (Payload.ErrorResponse "internal error"), s1)
  | (none, s1) =>
    (writeJSON http.StatusOK (Payload.MessageResponse "FAQ deleted successfully"), s1)

/-- The constant `base` of `ServeHTTP`. -/
def base : String := "/api/v1/faqs"

/-- Go `(*Handler).ServeHTTP`. -/
def ServeHTTP (lib : Lib) (h : Handler σ) (r : http.Request) (s : σ) : Response × σ :=
  if r.Path = "/healthz" then
    (writeJSON http.StatusOK (Payload.Status "ok"), s)
  else if ¬ strings.HasPrefix r.Path base then
    (writeJSON http.StatusNotFound (Payload.ErrorResponse "not found"), s)
  else
    let rest := strings.TrimPrefix r.Path base
    if rest = "" ∨ rest = "/" then
      if r.Method = http.MethodGet then handleListFAQs h r s
      else if r.Method = http.MethodPost then handleCreateFAQ lib h r s
      else (writeJSON http.StatusMethodNotAllowed (Payload.ErrorResponse "method not allowed"), s)
    else if ¬ strings.HasPrefix rest "/" then
      (writeJSON http.StatusNotFound (Payload.ErrorResponse "not found"), s)
    else
      let idRaw := strings.TrimPrefix rest "/"
      if idRaw = "" ∨ strings.Contains idRaw "/" then
        (writeJSON http.StatusNotFound (Payload.ErrorResponse "not found"), s)
      else
        match lib.uuid.Parse idRaw with
        | Except.error _ =>
          (writeJSON http.StatusBadRequest (Payload.ErrorResponse "invalid id"), s)
        | Except.ok id =>
          if r.Method = http.MethodGet then handleGetFAQ h r id s
          else if r.Method = http.MethodPut then handleUpdateFAQ lib h r id s
          else if r.Method = http.MethodDelete then handleDeleteFAQ h r id s
          else
            (writeJSON http.StatusMethodNotAllowed (Payload.ErrorResponse "method not allowed"), s)

end Handler

end api

/-! ## Concrete collaborators for evaluating the code on explicit inputs -/

namespace fixtures

open domain

/-- The value of a hexadecimal digit, as `uuid.Parse` reads one. -/
def hexDigit (c : Char) : Option Nat :=
  if '0' ≤ c ∧ c ≤ '9' then some (c.toNat - '0'.toNat)
  else if 'a' ≤ c ∧ c ≤ 'f' then some (c.toNat - 'a'.toNat + 10)
  else if 'A' ≤ c ∧ c ≤ 'F' then some (c.toNat - 'A'.toNat + 10)
  else none

/-- The number a list of hexadecimal digits spells, most significant first. -/
def hexValue : List Char → Nat → Option Nat
  | [], acc => some acc
  | c :: cs, acc =>
    match hexDigit c with
    | some d => hexValue cs (16 * acc + d)
    | none => none

/-- The 36-character form `xxxxxxxx-xxxx-xxxx-xxxx-xxxxxxxxxxxx` of `uuid.Parse`;
every other text is refused, also the 32-digit, `urn:uuid:` and braced forms
that the library reads. It stands for the library only on texts where both
agree: the canonical form, and texts of other lengths than 32, 38 and 45. -/
def canonicalParse (s : String) : Except LibError uuid.UUID :=
  let cs := s.data
  if cs.length ≠ 36 then Except.error (LibError.New "invalid UUID length")
  else if cs.get? 8 ≠ some '-' ∨ cs.get? 13 ≠ some '-' ∨ cs.get? 18 ≠ some '-'
      ∨ cs.get? 23 ≠ some '-' then
    Except.error (LibError.New "invalid UUID format")
  else
    match hexValue (cs.take 8 ++ (cs.drop 9).take 4 ++ (cs.drop 14).take 4
        ++ (cs.drop 19).take 4 ++ (cs.drop 24).take 12) 0 with
    | some v => Except.ok ⟨v⟩
    | none => Except.error (LibError.New "invalid UUID format")

/-- The lower-case hexadecimal digit of a value below sixteen. -/
def hexChar (d : Nat) : Char :=
  if d < 10 then Char.ofNat ('0'.toNat + d) else Char.ofNat ('a'.toNat + (d - 10))

/-- The last `n` hexadecimal digits of `v`, most significant first. -/
def hexDigits : Nat → Nat → List Char
  | 0, _ => []
  | n + 1, v => hexDigits n (v / 16) ++ [hexChar (v % 16)]

/-- The canonical text of an identifier, as `UUID.String` writes it: the 32
hexadecimal digits of the value, which sixteen bytes keep below `2 ^ 128`. -/
def canonicalString (id : uuid.UUID) : String :=
  let ds := hexDigits 32 id.value
  String.mk (ds.take 8 ++ ['-'] ++ (ds.drop 8).take 4 ++ ['-'] ++ (ds.drop 12).take 4 ++ ['-']
    ++ (ds.drop 16).take 4 ++ ['-'] ++ ds.drop 20)

/-- A `uuid` library that reads and writes the canonical form. -/
def uuidLib : uuid.Lib where
  Parse := canonicalParse
  String := canonicalString

/-- A decoder that yields the given request for every body, with nothing left
to read. -/
def decoderOf {α : Type} (req : α) : json.Lib α where
  Decode := fun _ _ => Except.ok (req, "")
  AtEOF := fun rest => decide (rest = "")

/-- The libraries of the handler: canonical identifiers, and bodies that decode
to the title "Q1", the content "A1", the position 1 and the given `is_active`. -/
def libOf (isActive : Option Bool) : api.Lib where
  uuid := uuidLib
  createJSON := decoderOf { Title := "Q1", Content := "A1", Position := 1, IsActive := isActive }
  updateJSON := decoderOf { Title := "Q1", Content := "A1", Position := 1, IsActive := isActive }

/-- The libraries of the handler when bodies hold no `is_active`. -/
def lib : api.Lib := libOf none

/-- A driver and database where every step succeeds. -/
def quietEnv : sql.Env where
  beginErr := none
  queryErr := none
  scanErr := fun _ => none
  rowsErr := none
  rowsAffectedErr := none
  commitErr := none
  newID := "00000000-0000-0000-0000-00000000002a"
  now := 1700000000

/-- A table that holds one row: the identifier 1 and ("Q1", "A1", 1), active. -/
def oneRow : sql.DB :=
  { faqs := [{ id := "00000000-0000-0000-0000-000000000001", title := "Q1", content := "A1",
               position := 1, is_active := true, created_at := 1600000000,
               updated_at := 1600000000 }] }

/-- The handler of `main`, wired to the service and the repository, with the
calls received by the service written down. -/
def handler (env : sql.Env) : api.Handler (sql.DB × List Call) :=
  api.NewHandler (recording (service.NewFAQService (repository.NewFAQRepository uuidLib env)))

/-- A backend whose `Create` refuses every input with a validation failure of
its own and whose other methods find nothing. -/
def strictBackend : FAQOps Unit where
  ListActive := fun s => (Except.ok [], s)
  GetByID := fun _ s => (Except.error Error.ErrNotFound, s)
  Create := fun _ s => (Except.error (Error.ValidationError "title is too long"), s)
  Update := fun _ _ s => (Except.error Error.ErrNotFound, s)
  Delete := fun _ s => (none, s)

/-- A backend whose every method fails on a refused connection. -/
def brokenBackend : FAQOps Unit where
  ListActive := fun s =>
    (Except.error (Error.Errorf "list active faqs" (Error.Lib (LibError.New "connection refused"))), s)
  GetByID := fun _ s =>
    (Except.error (Error.Errorf "get faq" (Error.Lib (LibError.New "connection refused"))), s)
  Create := fun _ s =>
    (Except.error (Error.Errorf "create faq" (Error.Lib (LibError.New "connection refused"))), s)
  Update := fun _ _ s =>
    (Except.error (Error.Errorf "begin tx" (Error.Lib (LibError.New "connection refused"))), s)
  Delete := fun _ s =>
    (some (Error.Errorf "begin tx" (Error.Lib (LibError.New "connection refused"))), s)

end fixtures

/-! ## Theorems -/

section Routing

open domain api

theorem strings.HasPrefix_append (pre t : String) : strings.HasPrefix (pre ++ t) pre = true := by
  simp [strings.HasPrefix, String.data_append]

theorem strings.TrimPrefix_append (pre t : String) : strings.TrimPrefix (pre ++ t) pre = t := by
  simp [strings.TrimPrefix, strings.HasPrefix_append, String.data_append]

theorem strings.append_eq_left_iff (pre t : String) : pre ++ t = pre ↔ t = "" := by
  constructor
  · intro h
    have h1 : (pre ++ t).data = pre.data := by rw [h]
    rw [String.data_append] at h1
    have h2 : t.data = [] := by simpa using h1
    exact String.ext h2
  · intro h
    subst h
    simp

/-- The path of an item: the base, a separator and a segment. -/
theorem itemPath_facts (seg : String) :
    Handler.base ++ "/" ++ seg ≠ "/healthz"
    ∧ strings.HasPrefix (Handler.base ++ "/" ++ seg) Handler.base = true
    ∧ strings.TrimPrefix (Handler.base ++ "/" ++ seg) Handler.base = "/" ++ seg
    ∧ "/" ++ seg ≠ ""
    ∧ ("/" ++ seg = "/" ↔ seg = "")
    ∧ strings.HasPrefix ("/" ++ seg) "/" = true
    ∧ strings.TrimPrefix ("/" ++ seg) "/" = seg := by
  refine ⟨?_, ?_, ?_, ?_, ?_, ?_, ?_⟩
  · intro h
    have h1 : strings.HasPrefix "/healthz" Handler.base = true := by
      rw [← h, String.append_assoc]
      exact strings.HasPrefix_append _ _
    revert h1
    decide
  · rw [String.append_assoc]
    exact strings.HasPrefix_append _ _
  · rw [String.append_assoc]
    exact strings.TrimPrefix_append _ _
  · intro h
    have h1 : ("/" ++ seg).data = [] := by rw [h]
    rw [String.data_append] at h1
    simp at h1
  · exact strings.append_eq_left_iff "/" seg
  · exact strings.HasPrefix_append _ _
  · exact strings.TrimPrefix_append _ _

/-- On a nil identifier the service refuses `GetByID` before reaching storage. -/
theorem service_GetByID_nil {σ : Type} (repo : FAQOps σ) (s : σ) :
    service.FAQService.GetByID repo uuid.Nil s
      = (Except.error (Error.ValidationError "id is required"), s) := by
  simp [service.FAQService.GetByID]

/-- On a nil identifier the service refuses `Delete` before reaching storage. -/
theorem service_Delete_nil {σ : Type} (repo : FAQOps σ) (s : σ) :
    service.FAQService.Delete repo uuid.Nil s
      = (some (Error.ValidationError "id is required"), s) := by
  simp [service.FAQService.Delete]

/-- C1 (evaluation of the code where the claim fails): for every storage backend,
`handleGetFAQ` and `handleDeleteFAQ` on the nil identifier receive the validation
failure "id is required" from the service and answer 500 "internal error", not
400 with the validation message; `writeServiceError`, which the create and update
handlers use, maps the same error to 400 "id is required". So do `GET` and
`DELETE` on `/api/v1/faqs/00000000-0000-0000-0000-000000000000` through
`ServeHTTP`, the service and the repository. -/
theorem C1_get_delete_validation_answers_500 {σ : Type} (repo : FAQOps σ) (r : http.Request)
    (s : σ) :
    (service.FAQService.GetByID repo uuid.Nil s).1
        = Except.error (Error.ValidationError "id is required")
    ∧ Handler.handleGetFAQ (NewHandler (service.NewFAQService repo)) r uuid.Nil s
        = (writeJSON 500 (Payload.ErrorResponse "internal error"), s)
    ∧ (service.FAQService.Delete repo uuid.Nil s).1
        = some (Error.ValidationError "id is required")
    ∧ Handler.handleDeleteFAQ (NewHandler (service.NewFAQService repo)) r uuid.Nil s
        = (writeJSON 500 (Payload.ErrorResponse "internal error"), s)
    ∧ writeServiceError (Error.ValidationError "id is required")
        = writeJSON 400 (Payload.ErrorResponse "id is required")
    ∧ Handler.ServeHTTP fixtures.lib (fixtures.handler fixtures.quietEnv)
          { Method := "GET", Path := "/api/v1/faqs/00000000-0000-0000-0000-000000000000",
            Body := "" } (fixtures.oneRow, [])
        = (writeJSON 500 (Payload.ErrorResponse "internal error"),
            (fixtures.oneRow, [Call.GetByID uuid.Nil]))
    ∧ Handler.ServeHTTP fixtures.lib (fixtures.handler fixtures.quietEnv)
          { Method := "DELETE", Path := "/api/v1/faqs/00000000-0000-0000-0000-000000000000",
            Body := "" } (fixtures.oneRow, [])
        = (writeJSON 500 (Payload.ErrorResponse "internal error"),
            (fixtures.oneRow, [Call.Delete uuid.Nil])) := by
  refine ⟨?_, ?_, ?_, ?_, ?_, by decide, by decide⟩
  · rw [service_GetByID_nil]
  · simp [Handler.handleGetFAQ, NewHandler, service.NewFAQService, service_GetByID_nil,
      Error.IsNotFound, http.StatusInternalServerError]
  · rw [service_Delete_nil]
  · simp [Handler.handleDeleteFAQ, NewHandler, service.NewFAQService, service_Delete_nil,
      Error.IsNotFound, http.StatusInternalServerError]
  · simp [writeServiceError, Error.IsNotFound, Error.AsValidation, http.StatusBadRequest]

/-- C2 (counterexample): `GET /api/v1/faqs/`, the base followed by a separator
and an empty segment, is not answered 404: the service's `ListActive` is invoked
and, on an empty table, the answer is 200 with an empty list. -/
theorem C2_empty_segment_lists :
    Handler.ServeHTTP fixtures.lib (fixtures.handler fixtures.quietEnv)
        { Method := "GET", Path := "/api/v1/faqs/", Body := "" } ({ faqs := [] }, [])
      = ({ contentType := "application/json; charset=utf-8", status := 200,
              body := Payload.DataList [] }, ({ faqs := [] }, [Call.ListActive])) := by
  decide

/-- C2 (amended): for every method, a path made of the base, a separator and a
segment with an embedded `/` is answered 404 "not found" and the service
receives no call; the path `/api/v1/faqs/`, whose segment is empty, is served
exactly as the collection path `/api/v1/faqs`. -/
theorem C2_embedded_separator_404 {σ : Type} (lib : Lib) (svc : FAQOps σ)
    (method body seg : String) (s : σ) (hseg : strings.Contains seg "/" = true) :
    Handler.ServeHTTP lib (NewHandler (recording svc))
        { Method := method, Path := Handler.base ++ "/" ++ seg, Body := body } (s, [])
      = ({ contentType := "application/json; charset=utf-8", status := 404,
              body := Payload.ErrorResponse "not found" }, (s, []))
    ∧ Handler.ServeHTTP lib (NewHandler (recording svc))
        { Method := method, Path := "/api/v1/faqs/", Body := body } (s, [])
      = Handler.ServeHTTP lib (NewHandler (recording svc))
        { Method := method, Path := "/api/v1/faqs", Body := body } (s, []) := by
  rw [show ({ contentType := "application/json; charset=utf-8", status := 404,
              body := Payload.ErrorResponse "not found" } : Response)
    = writeJSON 404 (Payload.ErrorResponse "not found") from rfl]
  obtain ⟨h1, h2, h3, h4, h5, h6, h7⟩ := itemPath_facts seg
  have hne : seg ≠ "" := by
    intro h
    subst h
    revert hseg
    decide
  constructor
  · simp [Handler.ServeHTTP, h1, h2, h3, h4, h5, h6, h7, hne, hseg, http.StatusNotFound]
  · have e1 : strings.HasPrefix "/api/v1/faqs/" Handler.base = true := by decide
    have e2 : strings.HasPrefix "/api/v1/faqs" Handler.base = true := by decide
    have e3 : strings.TrimPrefix "/api/v1/faqs/" Handler.base = "/" := by decide
    have e4 : strings.TrimPrefix "/api/v1/faqs" Handler.base = "" := by decide
    simp [Handler.ServeHTTP, e1, e2, e3, e4, Handler.handleListFAQs, Handler.handleCreateFAQ,
      decodeJSON]

/-- C2 (amended), at an explicit request: `DELETE /api/v1/faqs/a/b`. -/
theorem C2_embedded_separator_404_witness :
    strings.Contains "a/b" "/" = true
    ∧ Handler.ServeHTTP fixtures.lib (NewHandler (recording fixtures.strictBackend))
        { Method := "DELETE", Path := Handler.base ++ "/" ++ "a/b", Body := "" } ((), [])
      = ({ contentType := "application/json; charset=utf-8", status := 404,
              body := Payload.ErrorResponse "not found" }, ((), [])) :=
  ⟨by decide,
    (C2_embedded_separator_404 fixtures.lib fixtures.strictBackend "DELETE" "" "a/b" ()
      (by decide)).1⟩

end Routing

section Service

open domain

/-- The service validator passes exactly when no field is refused. -/
theorem service_validate_none_iff (title content : String) (position : Int) :
    service.validateFAQInput title content position = none
      ↔ ¬ (strings.TrimSpace title = "" ∨ strings.TrimSpace content = "" ∨ position ≤ 0) := by
  unfold service.validateFAQInput
  by_cases h1 : strings.TrimSpace title = ""
  · simp [h1]
  · by_cases h2 : strings.TrimSpace content = ""
    · simp [h1, h2]
    · by_cases h3 : position ≤ 0
      · simp [h1, h2, h3]
      · simp [h1, h2, h3]

/-- Whatever the service validator returns is a validation failure. -/
theorem service_validate_some (title content : String) (position : Int) (err : Error)
    (h : service.validateFAQInput title content position = some err) :
    ∃ m, err = Error.ValidationError m := by
  unfold service.validateFAQInput at h
  split_ifs at h <;> simp at h <;> exact ⟨_, h.symm⟩

/-- The repository validator is the service validator. -/
theorem repository_validate_eq (title content : String) (position : Int) :
    repository.validateFAQInput title content position
      = service.validateFAQInput title content position := rfl

/-- An error of the repository's `GetByID` on a non-nil id holds no validation failure. -/
theorem repository_GetByID_error (lib : uuid.Lib) (env : sql.Env) (id : uuid.UUID) (db : sql.DB)
    (hid : id ≠ uuid.Nil) (err : Error)
    (h : (repository.FAQRepository.GetByID lib env id db).1 = Except.error err) :
    err.AsValidation = none := by
  unfold repository.FAQRepository.GetByID at h
  simp only [repository.validateFAQID, if_neg hid] at h
  split at h
  · split_ifs at h <;> simp at h <;> subst h <;> rfl
  · split at h <;> simp at h
    subst h
    rfl

/-- An error of the repository's `Update` on a non-nil id and accepted fields
holds no validation failure. -/
theorem repository_Update_error (lib : uuid.Lib) (env : sql.Env) (id : uuid.UUID)
    (input : UpdateFAQInput) (db : sql.DB) (hid : id ≠ uuid.Nil)
    (hin : service.validateFAQInput input.Title input.Content input.Position = none)
    (err : Error)
    (h : (repository.FAQRepository.Update lib env id input db).1 = Except.error err) :
    err.AsValidation = none := by
  unfold repository.FAQRepository.Update at h
  simp only [repository.validateFAQID, if_neg hid, repository_validate_eq, hin] at h
  split at h
  · simp at h
    subst h
    rfl
  · split at h
    · split_ifs at h <;> simp at h <;> subst h <;> rfl
    · split at h
      · simp at h
        subst h
        rfl
      · split at h <;> simp at h
        subst h
        rfl

/-- An error of the repository's `Delete` on a non-nil id holds no validation failure. -/
theorem repository_Delete_error (lib : uuid.Lib) (env : sql.Env) (id : uuid.UUID) (db : sql.DB)
    (hid : id ≠ uuid.Nil) (err : Error)
    (h : (repository.FAQRepository.Delete lib env id db).1 = some err) :
    err.AsValidation = none := by
  unfold repository.FAQRepository.Delete at h
  simp only [repository.validateFAQID, if_neg hid] at h
  split at h
  · simp at h
    subst h
    rfl
  · split at h
    · simp at h
      subst h
      rfl
    · split at h
      · simp at h
        subst h
        rfl
      · split at h <;> simp at h
        subst h
        rfl

/-- An error of the repository's `Create` on accepted fields holds no validation failure. -/
theorem repository_Create_error (lib : uuid.Lib) (env : sql.Env) (input : CreateFAQInput)
    (db : sql.DB)
    (hin : service.validateFAQInput input.Title input.Content input.Position = none)
    (err : Error)
    (h : (repository.FAQRepository.Create lib env input db).1 = Except.error err) :
    err.AsValidation = none := by
  unfold repository.FAQRepository.Create at h
  simp only [repository_validate_eq, hin] at h
  split at h
  · simp at h
    subst h
    rfl
  · split at h
    · simp at h
      subst h
      rfl
    · split at h <;> simp at h
      subst h
      rfl

/-- No message of the service validator is "id is required". -/
theorem service_validate_ne_id (title content : String) (position : Int) :
    service.validateFAQInput title content position
      ≠ some (Error.ValidationError "id is required") := by
  unfold service.validateFAQInput
  split_ifs <;> simp

/-- Past its id check, service `GetByID` returns what storage returns. -/
theorem service_GetByID_delegates {σ : Type} (repo : FAQOps σ) (id : uuid.UUID) (s : σ)
    (hid : id ≠ uuid.Nil) : service.FAQService.GetByID repo id s = repo.GetByID id s := by
  simp only [service.FAQService.GetByID, if_neg hid]
  rcases h : repo.GetByID id s with ⟨r, s1⟩
  cases r <;> rfl

/-- Past its validation, service `Create` returns what storage returns. -/
theorem service_Create_delegates {σ : Type} (repo : FAQOps σ) (input : CreateFAQInput) (s : σ)
    (hin : service.validateFAQInput input.Title input.Content input.Position = none) :
    service.FAQService.Create repo input s = repo.Create input s := by
  simp only [service.FAQService.Create, hin]
  rcases h : repo.Create input s with ⟨r, s1⟩
  cases r <;> rfl

/-- Past its two checks, service `Update` returns what storage returns. -/
theorem service_Update_delegates {σ : Type} (repo : FAQOps σ) (id : uuid.UUID)
    (input : UpdateFAQInput) (s : σ) (hid : id ≠ uuid.Nil)
    (hin : service.validateFAQInput input.Title input.Content input.Position = none) :
    service.FAQService.Update repo id input s = repo.Update id input s := by
  simp only [service.FAQService.Update, if_neg hid, hin]
  rcases h : repo.Update id input s with ⟨r, s1⟩
  cases r <;> rfl

/-- Past its id check, service `Delete` returns what storage returns. -/
theorem service_Delete_delegates {σ : Type} (repo : FAQOps σ) (id : uuid.UUID) (s : σ)
    (hid : id ≠ uuid.Nil) : service.FAQService.Delete repo id s = repo.Delete id s := by
  simp only [service.FAQService.Delete, if_neg hid]
  rcases h : repo.Delete id s with ⟨r, s1⟩
  cases r <;> rfl

/-- A refused `Update` leaves the state of storage as it was. -/
theorem service_Update_refused {σ : Type} (repo : FAQOps σ) (id : uuid.UUID)
    (input : UpdateFAQInput) (s : σ) (hid : id ≠ uuid.Nil) (err : Error)
    (hin : service.validateFAQInput input.Title input.Content input.Position = some err) :
    service.FAQService.Update repo id input s = (Except.error err, s) := by
  simp only [service.FAQService.Update, if_neg hid, hin]

/-- On a nil identifier the service refuses `Update` before reaching storage. -/
theorem service_Update_nil {σ : Type} (repo : FAQOps σ) (input : UpdateFAQInput) (s : σ) :
    service.FAQService.Update repo uuid.Nil input s
      = (Except.error (Error.ValidationError "id is required"), s) := by
  simp [service.FAQService.Update]

end Service

section ServiceClaims

open domain

/-- C3 (counterexample): with a storage backend whose `Create` answers a
validation failure of its own, service create returns a validation failure for
the input ("Q1", "A1", 1), whose title and content are not empty after trimming
and whose position is positive. -/
theorem C3_backend_validation_failure :
    (service.FAQService.Create fixtures.strictBackend
        { Title := "Q1", Content := "A1", Position := 1, IsActive := true } ()).1
      = Except.error (Error.ValidationError "title is too long")
    ∧ ¬ (strings.TrimSpace "Q1" = "" ∨ strings.TrimSpace "A1" = "" ∨ (1 : Int) ≤ 0) := by
  decide

/-- C3 (amended): for every input and every storage backend, service create
refuses the input itself, returning a validation failure without invoking
storage, if and only if the title is empty after trimming, or the content is
empty after trimming, or the position is at most 0; otherwise storage create is
invoked exactly once with the input unchanged and its result or error, of
whatever kind, and its new state are returned unchanged. Over the repository of
this program, whose errors past validation are never validation failures,
service create returns a validation failure if and only if that condition on
the fields holds. -/
theorem C3_create_refuses_or_delegates {σ : Type} (repo : FAQOps σ) (input : CreateFAQInput)
    (s : σ) (lib : uuid.Lib) (env : sql.Env) (db : sql.DB) :
    ((strings.TrimSpace input.Title = "" ∨ strings.TrimSpace input.Content = ""
        ∨ input.Position ≤ 0) →
      ∃ m, service.FAQService.Create (recording repo) input (s, [])
        = (Except.error (Error.ValidationError m), (s, [])))
    ∧ (¬ (strings.TrimSpace input.Title = "" ∨ strings.TrimSpace input.Content = ""
        ∨ input.Position ≤ 0) →
      service.FAQService.Create (recording repo) input (s, [])
        = ((repo.Create input s).1, ((repo.Create input s).2, [Call.Create input])))
    ∧ ((∃ m, service.FAQService.Create (recording repo) input (s, [])
          = (Except.error (Error.ValidationError m), (s, [])))
        ↔ (strings.TrimSpace input.Title = "" ∨ strings.TrimSpace input.Content = ""
            ∨ input.Position ≤ 0))
    ∧ ((∃ m, (service.FAQService.Create (repository.NewFAQRepository lib env) input db).1
          = Except.error (Error.ValidationError m))
        ↔ (strings.TrimSpace input.Title = "" ∨ strings.TrimSpace input.Content = ""
            ∨ input.Position ≤ 0)) := by
  have hrej : (strings.TrimSpace input.Title = "" ∨ strings.TrimSpace input.Content = ""
        ∨ input.Position ≤ 0) →
      ∃ m, service.FAQService.Create (recording repo) input (s, [])
        = (Except.error (Error.ValidationError m), (s, [])) := by
    intro h
    cases hv : service.validateFAQInput input.Title input.Content input.Position with
    | none => exact absurd h ((service_validate_none_iff _ _ _).1 hv)
    | some err =>
      obtain ⟨m, hm⟩ := service_validate_some _ _ _ _ hv
      refine ⟨m, ?_⟩
      simp [service.FAQService.Create, hv, hm]
  have hacc : ¬ (strings.TrimSpace input.Title = "" ∨ strings.TrimSpace input.Content = ""
        ∨ input.Position ≤ 0) →
      service.FAQService.Create (recording repo) input (s, [])
        = ((repo.Create input s).1, ((repo.Create input s).2, [Call.Create input])) := by
    intro h
    have hv := (service_validate_none_iff _ _ _).2 h
    simp only [service.FAQService.Create, hv, recording, List.nil_append]
    cases (repo.Create input s).1 <;> rfl
  refine ⟨hrej, hacc, ⟨?_, hrej⟩, ?_, ?_⟩
  · rintro ⟨m, hm⟩
    by_contra h
    rw [hacc h] at hm
    simp at hm
  · rintro ⟨m, hm⟩
    by_contra h
    have hv := (service_validate_none_iff _ _ _).2 h
    rw [service_Create_delegates _ _ _ hv] at hm
    have := repository_Create_error lib env input db hv _ hm
    simp [Error.AsValidation] at this
  · intro h
    cases hv : service.validateFAQInput input.Title input.Content input.Position with
    | none => exact absurd h ((service_validate_none_iff _ _ _).1 hv)
    | some err =>
      obtain ⟨m, hm⟩ := service_validate_some _ _ _ _ hv
      refine ⟨m, ?_⟩
      simp [service.FAQService.Create, hv, hm]

/-- C3 (amended), at explicit inputs: position 0 is refused without a call, and
("Q1", "A1", 1) reaches the backend once. -/
theorem C3_create_refuses_or_delegates_witness :
    (∃ m, service.FAQService.Create (recording fixtures.strictBackend)
        { Title := "Q", Content := "A", Position := 0, IsActive := true } ((), [])
        = (Except.error (Error.ValidationError m), ((), [])))
    ∧ service.FAQService.Create (recording fixtures.strictBackend)
        { Title := "Q1", Content := "A1", Position := 1, IsActive := true } ((), [])
      = (Except.error (Error.ValidationError "title is too long"),
          ((), [Call.Create { Title := "Q1", Content := "A1", Position := 1, IsActive := true }])) :=
  ⟨(C3_create_refuses_or_delegates fixtures.strictBackend
      { Title := "Q", Content := "A", Position := 0, IsActive := true } ()
      fixtures.uuidLib fixtures.quietEnv fixtures.oneRow).1 (by decide),
   (C3_create_refuses_or_delegates fixtures.strictBackend
      { Title := "Q1", Content := "A1", Position := 1, IsActive := true } ()
      fixtures.uuidLib fixtures.quietEnv fixtures.oneRow).2.1 (by decide)⟩

/-- C4: for every storage backend, `GetByID`, `Update` and `Delete` of the service
answer the validation failure "id is required" on the nil identifier without
invoking storage, for `Update` whatever the fields are (the id check comes
first), and answer it with storage untouched only on the nil identifier; over the
repository of this program each of them returns "id is required" if and only if
the id is nil, and `Update` returns a validation failure if and only if the id is
nil or the field validation of create fails. -/
theorem C4_id_is_required {σ : Type} (repo : FAQOps σ) (lib : uuid.Lib) (env : sql.Env)
    (id : uuid.UUID) (input : UpdateFAQInput) (s : σ) (db : sql.DB) :
    service.FAQService.GetByID (recording repo) uuid.Nil (s, [])
        = (Except.error (Error.ValidationError "id is required"), (s, []))
    ∧ service.FAQService.Update (recording repo) uuid.Nil input (s, [])
        = (Except.error (Error.ValidationError "id is required"), (s, []))
    ∧ service.FAQService.Delete (recording repo) uuid.Nil (s, [])
        = (some (Error.ValidationError "id is required"), (s, []))
    ∧ (service.FAQService.GetByID (recording repo) id (s, [])
        = (Except.error (Error.ValidationError "id is required"), (s, [])) ↔ id = uuid.Nil)
    ∧ (service.FAQService.Update (recording repo) id input (s, [])
        = (Except.error (Error.ValidationError "id is required"), (s, [])) ↔ id = uuid.Nil)
    ∧ (service.FAQService.Delete (recording repo) id (s, [])
        = (some (Error.ValidationError "id is required"), (s, [])) ↔ id = uuid.Nil)
    ∧ ((service.FAQService.GetByID (repository.NewFAQRepository lib env) id db).1
        = Except.error (Error.ValidationError "id is required") ↔ id = uuid.Nil)
    ∧ ((service.FAQService.Update (repository.NewFAQRepository lib env) id input db).1
        = Except.error (Error.ValidationError "id is required") ↔ id = uuid.Nil)
    ∧ ((service.FAQService.Delete (repository.NewFAQRepository lib env) id db).1
        = some (Error.ValidationError "id is required") ↔ id = uuid.Nil)
    ∧ ((∃ m, (service.FAQService.Update (repository.NewFAQRepository lib env) id input db).1
          = Except.error (Error.ValidationError m))
        ↔ (id = uuid.Nil ∨ strings.TrimSpace input.Title = ""
            ∨ strings.TrimSpace input.Content = "" ∨ input.Position ≤ 0)) := by
  have hget : ∀ {τ : Type} (r : FAQOps τ) (t : τ), id ≠ uuid.Nil →
      service.FAQService.GetByID (recording r) id (t, [])
        ≠ (Except.error (Error.ValidationError "id is required"), (t, [])) := by
    intro τ r t hid h
    rw [service_GetByID_delegates _ _ _ hid] at h
    simp [recording] at h
  have hdel : ∀ {τ : Type} (r : FAQOps τ) (t : τ), id ≠ uuid.Nil →
      service.FAQService.Delete (recording r) id (t, [])
        ≠ (some (Error.ValidationError "id is required"), (t, [])) := by
    intro τ r t hid h
    rw [service_Delete_delegates _ _ _ hid] at h
    simp [recording] at h
  have hupd : ∀ {τ : Type} (r : FAQOps τ) (t : τ), id ≠ uuid.Nil →
      service.FAQService.Update (recording r) id input (t, [])
        ≠ (Except.error (Error.ValidationError "id is required"), (t, [])) := by
    intro τ r t hid h
    cases hv : service.validateFAQInput input.Title input.Content input.Position with
    | none =>
      rw [service_Update_delegates _ _ _ _ hid hv] at h
      simp [recording] at h
    | some err =>
      rw [service_Update_refused _ _ _ _ hid err hv] at h
      simp only [Prod.mk.injEq, Except.error.injEq, and_true] at h
      exact service_validate_ne_id _ _ _ (hv.trans (congrArg some h))
  refine ⟨service_GetByID_nil _ _, service_Update_nil _ _ _, service_Delete_nil _ _,
    ?_, ?_, ?_, ?_, ?_, ?_, ?_⟩
  · constructor
    · intro h
      by_contra hid
      exact hget repo s hid h
    · rintro rfl
      exact service_GetByID_nil _ _
  · constructor
    · intro h
      by_contra hid
      exact hupd repo s hid h
    · rintro rfl
      exact service_Update_nil _ _ _
  · constructor
    · intro h
      by_contra hid
      exact hdel repo s hid h
    · rintro rfl
      exact service_Delete_nil _ _
  · constructor
    · intro h
      by_contra hid
      rw [service_GetByID_delegates _ _ _ hid] at h
      have := repository_GetByID_error lib env id db hid _ h
      simp [Error.AsValidation] at this
    · rintro rfl
      rw [service_GetByID_nil]
  · constructor
    · intro h
      by_contra hid
      cases hv : service.validateFAQInput input.Title input.Content input.Position with
      | none =>
        rw [service_Update_delegates _ _ _ _ hid hv] at h
        have := repository_Update_error lib env id input db hid hv _ h
        simp [Error.AsValidation] at this
      | some err =>
        rw [service_Update_refused _ _ _ _ hid err hv] at h
        simp only [Except.error.injEq] at h
        exact service_validate_ne_id _ _ _ (hv.trans (congrArg some h))
    · rintro rfl
      rw [service_Update_nil]
  · constructor
    · intro h
      by_contra hid
      rw [service_Delete_delegates _ _ _ hid] at h
      have := repository_Delete_error lib env id db hid _ h
      simp [Error.AsValidation] at this
    · rintro rfl
      rw [service_Delete_nil]
  · constructor
    · rintro ⟨m, h⟩
      by_contra hno
      push_neg at hno
      obtain ⟨hid, h1, h2, h3⟩ := hno
      have hv : service.validateFAQInput input.Title input.Content input.Position = none :=
        (service_validate_none_iff _ _ _).2 (by
          rintro (h | h | h)
          · exact h1 h
          · exact h2 h
          · exact absurd h (not_le.mpr h3))
      rw [service_Update_delegates _ _ _ _ hid hv] at h
      have := repository_Update_error lib env id input db hid hv _ h
      simp [Error.AsValidation] at this
    · intro h
      by_cases hid : id = uuid.Nil
      · subst hid
        exact ⟨_, by rw [service_Update_nil]⟩
      · have hf : strings.TrimSpace input.Title = "" ∨ strings.TrimSpace input.Content = ""
            ∨ input.Position ≤ 0 := by
          rcases h with h | h
          · exact absurd h hid
          · exact h
        cases hv : service.validateFAQInput input.Title input.Content input.Position with
        | none => exact absurd hf ((service_validate_none_iff _ _ _).1 hv)
        | some err =>
          obtain ⟨m, hm⟩ := service_validate_some _ _ _ _ hv
          refine ⟨m, ?_⟩
          rw [service_Update_refused _ _ _ _ hid err hv, hm]

end ServiceClaims

section Transport

open domain api

/-- How `ServeHTTP` serves an item path whose segment is a single non-empty
path element: the identifier is parsed first, then the method is looked at. -/
theorem ServeHTTP_item {σ : Type} (lib : Lib) (h : Handler σ) (method body seg : String) (s : σ)
    (hne : seg ≠ "") (hsep : strings.Contains seg "/" = false) :
    Handler.ServeHTTP lib h { Method := method, Path := Handler.base ++ "/" ++ seg, Body := body } s
      = match lib.uuid.Parse seg with
        | Except.error _ => (writeJSON 400 (Payload.ErrorResponse "invalid id"), s)
        | Except.ok id =>
          if method = "GET" then
            Handler.handleGetFAQ h
              { Method := method, Path := Handler.base ++ "/" ++ seg, Body := body } id s
          else if method = "PUT" then
            Handler.handleUpdateFAQ lib h
              { Method := method, Path := Handler.base ++ "/" ++ seg, Body := body } id s
          else if method = "DELETE" then
            Handler.handleDeleteFAQ h
              { Method := method, Path := Handler.base ++ "/" ++ seg, Body := body } id s
          else (writeJSON 405 (Payload.ErrorResponse "method not allowed"), s) := by
  obtain ⟨h1, h2, h3, h4, h5, h6, h7⟩ := itemPath_facts seg
  simp only [Handler.ServeHTTP, h1, h2, h3, h4, h5, h6, h7, hne, hsep, if_false, or_self,
    not_true_eq_false, Bool.false_eq_true, http.StatusBadRequest, http.StatusMethodNotAllowed,
    http.MethodGet, http.MethodPut, http.MethodDelete]

/-- How `ServeHTTP` serves the collection path, with or without a trailing separator. -/
theorem ServeHTTP_collection {σ : Type} (lib : Lib) (h : Handler σ) (method body path : String)
    (s : σ) (hpath : path = "/api/v1/faqs" ∨ path = "/api/v1/faqs/") :
    Handler.ServeHTTP lib h { Method := method, Path := path, Body := body } s
      = if method = "GET" then
          Handler.handleListFAQs h { Method := method, Path := path, Body := body } s
        else if method = "POST" then
          Handler.handleCreateFAQ lib h { Method := method, Path := path, Body := body } s
        else (writeJSON 405 (Payload.ErrorResponse "method not allowed"), s) := by
  have e1 : strings.HasPrefix "/api/v1/faqs/" Handler.base = true := by decide
  have e2 : strings.HasPrefix "/api/v1/faqs" Handler.base = true := by decide
  have e3 : strings.TrimPrefix "/api/v1/faqs/" Handler.base = "/" := by decide
  have e4 : strings.TrimPrefix "/api/v1/faqs" Handler.base = "" := by decide
  rcases hpath with rfl | rfl
  · simp [Handler.ServeHTTP, e2, e4, http.MethodGet, http.MethodPost,
      http.StatusMethodNotAllowed]
  · simp [Handler.ServeHTTP, e1, e3, http.MethodGet, http.MethodPost,
      http.StatusMethodNotAllowed]

/-- The calls `handleListFAQs` makes. -/
theorem handleListFAQs_calls {σ : Type} (svc : FAQOps σ) (r : http.Request) (s : σ) :
    (Handler.handleListFAQs (NewHandler (recording svc)) r (s, [])).2.2 = [Call.ListActive] := by
  simp only [Handler.handleListFAQs, NewHandler, recording, List.nil_append]
  cases (svc.ListActive s).1 <;> rfl

/-- The calls `handleGetFAQ` makes. -/
theorem handleGetFAQ_calls {σ : Type} (svc : FAQOps σ) (r : http.Request) (id : uuid.UUID)
    (s : σ) :
    (Handler.handleGetFAQ (NewHandler (recording svc)) r id (s, [])).2.2 = [Call.GetByID id] := by
  simp only [Handler.handleGetFAQ, NewHandler, recording, List.nil_append]
  generalize (svc.GetByID id s).1 = res
  generalize (svc.GetByID id s).2 = st
  cases res with
  | ok v => rfl
  | error e =>
    dsimp only
    split_ifs <;> rfl

/-- The calls `handleDeleteFAQ` makes. -/
theorem handleDeleteFAQ_calls {σ : Type} (svc : FAQOps σ) (r : http.Request) (id : uuid.UUID)
    (s : σ) :
    (Handler.handleDeleteFAQ (NewHandler (recording svc)) r id (s, [])).2.2 = [Call.Delete id] := by
  simp only [Handler.handleDeleteFAQ, NewHandler, recording, List.nil_append]
  generalize (svc.Delete id s).1 = res
  generalize (svc.Delete id s).2 = st
  cases res with
  | none => rfl
  | some e =>
    dsimp only
    split_ifs <;> rfl

/-- The calls `handleCreateFAQ` makes: none when the body fails to decode, else
one `Create` with the decoded fields and the defaulted `is_active`. -/
theorem handleCreateFAQ_calls {σ : Type} (lib : Lib) (svc : FAQOps σ) (r : http.Request) (s : σ) :
    (Handler.handleCreateFAQ lib (NewHandler (recording svc)) r (s, [])).2.2
      = match decodeJSON lib.createJSON r with
        | Except.error _ => []
        | Except.ok req =>
          [Call.Create { Title := req.Title, Content := req.Content, Position := req.Position,
                         IsActive := req.IsActive.getD true }] := by
  simp only [Handler.handleCreateFAQ, NewHandler, recording, List.nil_append]
  cases decodeJSON lib.createJSON r with
  | error e => rfl
  | ok req =>
    have hd : (match req.IsActive with | some b => b | none => true) = req.IsActive.getD true := by
      cases req.IsActive <;> rfl
    simp only [hd]
    generalize (svc.Create _ s).1 = res
    generalize (svc.Create _ s).2 = st
    cases res <;> rfl

/-- The calls `handleUpdateFAQ` makes: none when the body fails to decode, else
one `Update` with the id, the decoded fields and the defaulted `is_active`. -/
theorem handleUpdateFAQ_calls {σ : Type} (lib : Lib) (svc : FAQOps σ) (r : http.Request)
    (id : uuid.UUID) (s : σ) :
    (Handler.handleUpdateFAQ lib (NewHandler (recording svc)) r id (s, [])).2.2
      = match decodeJSON lib.updateJSON r with
        | Except.error _ => []
        | Except.ok req =>
          [Call.Update id { Title := req.Title, Content := req.Content, Position := req.Position,
                            IsActive := req.IsActive.getD true }] := by
  simp only [Handler.handleUpdateFAQ, NewHandler, recording, List.nil_append]
  cases decodeJSON lib.updateJSON r with
  | error e => rfl
  | ok req =>
    have hd : (match req.IsActive with | some b => b | none => true) = req.IsActive.getD true := by
      cases req.IsActive <;> rfl
    simp only [hd]
    generalize (svc.Update id _ s).1 = res
    generalize (svc.Update id _ s).2 = st
    cases res <;> rfl

/-- C5: for every method, a request on `/api/v1/faqs/<seg>` whose segment is not
empty, holds no `/` and is refused by `uuid.Parse` is answered 400 "invalid id",
and the service receives no call. -/
theorem C5_unparsable_id_400 {σ : Type} (lib : Lib) (svc : FAQOps σ) (method body seg : String)
    (s : σ) (e : LibError) (hne : seg ≠ "") (hsep : strings.Contains seg "/" = false)
    (hparse : lib.uuid.Parse seg = Except.error e) :
    Handler.ServeHTTP lib (NewHandler (recording svc))
        { Method := method, Path := Handler.base ++ "/" ++ seg, Body := body } (s, [])
      = ({ contentType := "application/json; charset=utf-8", status := 400,
              body := Payload.ErrorResponse "invalid id" }, (s, [])) := by
  rw [show ({ contentType := "application/json; charset=utf-8", status := 400,
              body := Payload.ErrorResponse "invalid id" } : Response)
    = writeJSON 400 (Payload.ErrorResponse "invalid id") from rfl]
  rw [ServeHTTP_item lib _ method body seg _ hne hsep, hparse]

/-- C5, at explicit requests: `GET` and the unsupported `PATCH` on
`/api/v1/faqs/not-a-uuid`. -/
theorem C5_unparsable_id_400_witness :
    Handler.ServeHTTP fixtures.lib (NewHandler (recording fixtures.strictBackend))
        { Method := "GET", Path := Handler.base ++ "/" ++ "not-a-uuid", Body := "" } ((), [])
      = ({ contentType := "application/json; charset=utf-8", status := 400,
              body := Payload.ErrorResponse "invalid id" }, ((), []))
    ∧ Handler.ServeHTTP fixtures.lib (NewHandler (recording fixtures.strictBackend))
        { Method := "PATCH", Path := Handler.base ++ "/" ++ "not-a-uuid", Body := "" } ((), [])
      = ({ contentType := "application/json; charset=utf-8", status := 400,
              body := Payload.ErrorResponse "invalid id" }, ((), [])) :=
  ⟨C5_unparsable_id_400 fixtures.lib fixtures.strictBackend "GET" "" "not-a-uuid" ()
      (LibError.New "invalid UUID length") (by decide) (by decide) (by decide),
   C5_unparsable_id_400 fixtures.lib fixtures.strictBackend "PATCH" "" "not-a-uuid" ()
      (LibError.New "invalid UUID length") (by decide) (by decide) (by decide)⟩

/-- C6: a recognised path with a wrong method is answered 405 "method not
allowed" with no call to the service: the collection path (with or without the
trailing separator) for every method but GET and POST, an item path with a
well-formed identifier for every method but GET, PUT and DELETE. Conversely GET
and POST on the collection path run the list and create handlers, and GET, PUT
and DELETE on an item path run the get, update and delete handlers with the
parsed identifier; the service then receives exactly `ListActive`, `GetByID id`,
`Delete id`, and for create and update one `Create` or `Update id` call once the
body has decoded (none if it has not). -/
theorem C6_method_dispatch {σ : Type} (lib : Lib) (svc : FAQOps σ) (method body seg : String)
    (id : uuid.UUID) (s : σ) (hne : seg ≠ "") (hsep : strings.Contains seg "/" = false)
    (hparse : lib.uuid.Parse seg = Except.ok id) :
    (method ≠ "GET" → method ≠ "POST" →
        ∀ path, path = "/api/v1/faqs" ∨ path = "/api/v1/faqs/" →
          Handler.ServeHTTP lib (NewHandler (recording svc))
              { Method := method, Path := path, Body := body } (s, [])
            = ({ contentType := "application/json; charset=utf-8", status := 405,
                 body := Payload.ErrorResponse "method not allowed" }, (s, [])))
    ∧ (method ≠ "GET" → method ≠ "PUT" → method ≠ "DELETE" →
        Handler.ServeHTTP lib (NewHandler (recording svc))
            { Method := method, Path := Handler.base ++ "/" ++ seg, Body := body } (s, [])
          = ({ contentType := "application/json; charset=utf-8", status := 405,
               body := Payload.ErrorResponse "method not allowed" }, (s, [])))
    ∧ (Handler.ServeHTTP lib (NewHandler (recording svc))
            { Method := "GET", Path := "/api/v1/faqs", Body := body } (s, [])
          = Handler.handleListFAQs (NewHandler (recording svc))
              { Method := "GET", Path := "/api/v1/faqs", Body := body } (s, [])
        ∧ (Handler.ServeHTTP lib (NewHandler (recording svc))
            { Method := "GET", Path := "/api/v1/faqs", Body := body } (s, [])).2.2
          = [Call.ListActive])
    ∧ (Handler.ServeHTTP lib (NewHandler (recording svc))
            { Method := "POST", Path := "/api/v1/faqs", Body := body } (s, [])
          = Handler.handleCreateFAQ lib (NewHandler (recording svc))
              { Method := "POST", Path := "/api/v1/faqs", Body := body } (s, [])
        ∧ (Handler.ServeHTTP lib (NewHandler (recording svc))
            { Method := "POST", Path := "/api/v1/faqs", Body := body } (s, [])).2.2
          = match decodeJSON lib.createJSON
                { Method := "POST", Path := "/api/v1/faqs", Body := body } with
            | Except.error _ => []
            | Except.ok req =>
              [Call.Create { Title := req.Title, Content := req.Content,
                             Position := req.Position, IsActive := req.IsActive.getD true }])
    ∧ (Handler.ServeHTTP lib (NewHandler (recording svc))
            { Method := "GET", Path := Handler.base ++ "/" ++ seg, Body := body } (s, [])
          = Handler.handleGetFAQ (NewHandler (recording svc))
              { Method := "GET", Path := Handler.base ++ "/" ++ seg, Body := body } id (s, [])
        ∧ (Handler.ServeHTTP lib (NewHandler (recording svc))
            { Method := "GET", Path := Handler.base ++ "/" ++ seg, Body := body } (s, [])).2.2
          = [Call.GetByID id])
    ∧ (Handler.ServeHTTP lib (NewHandler (recording svc))
            { Method := "PUT", Path := Handler.base ++ "/" ++ seg, Body := body } (s, [])
          = Handler.handleUpdateFAQ lib (NewHandler (recording svc))
              { Method := "PUT", Path := Handler.base ++ "/" ++ seg, Body := body } id (s, [])
        ∧ (Handler.ServeHTTP lib (NewHandler (recording svc))
            { Method := "PUT", Path := Handler.base ++ "/" ++ seg, Body := body } (s, [])).2.2
          = match decodeJSON lib.updateJSON
                { Method := "PUT", Path := Handler.base ++ "/" ++ seg, Body := body } with
            | Except.error _ => []
            | Except.ok req =>
              [Call.Update id { Title := req.Title, Content := req.Content,
                                Position := req.Position, IsActive := req.IsActive.getD true }])
    ∧ (Handler.ServeHTTP lib (NewHandler (recording svc))
            { Method := "DELETE", Path := Handler.base ++ "/" ++ seg, Body := body } (s, [])
          = Handler.handleDeleteFAQ (NewHandler (recording svc))
              { Method := "DELETE", Path := Handler.base ++ "/" ++ seg, Body := body } id (s, [])
        ∧ (Handler.ServeHTTP lib (NewHandler (recording svc))
            { Method := "DELETE", Path := Handler.base ++ "/" ++ seg, Body := body } (s, [])).2.2
          = [Call.Delete id]) := by
  rw [show ({ contentType := "application/json; charset=utf-8", status := 405,
              body := Payload.ErrorResponse "method not allowed" } : Response)
    = writeJSON 405 (Payload.ErrorResponse "method not allowed") from rfl]
  have hGET : Handler.ServeHTTP lib (NewHandler (recording svc))
        { Method := "GET", Path := "/api/v1/faqs", Body := body } (s, [])
      = Handler.handleListFAQs (NewHandler (recording svc))
          { Method := "GET", Path := "/api/v1/faqs", Body := body } (s, []) := by
    rw [ServeHTTP_collection lib _ "GET" body _ _ (Or.inl rfl)]
    simp
  have hPOST : Handler.ServeHTTP lib (NewHandler (recording svc))
        { Method := "POST", Path := "/api/v1/faqs", Body := body } (s, [])
      = Handler.handleCreateFAQ lib (NewHandler (recording svc))
          { Method := "POST", Path := "/api/v1/faqs", Body := body } (s, []) := by
    rw [ServeHTTP_collection lib _ "POST" body _ _ (Or.inl rfl)]
    simp
  have hget : Handler.ServeHTTP lib (NewHandler (recording svc))
        { Method := "GET", Path := Handler.base ++ "/" ++ seg, Body := body } (s, [])
      = Handler.handleGetFAQ (NewHandler (recording svc))
          { Method := "GET", Path := Handler.base ++ "/" ++ seg, Body := body } id (s, []) := by
    rw [ServeHTTP_item lib _ "GET" body seg _ hne hsep, hparse]
    simp
  have hput : Handler.ServeHTTP lib (NewHandler (recording svc))
        { Method := "PUT", Path := Handler.base ++ "/" ++ seg, Body := body } (s, [])
      = Handler.handleUpdateFAQ lib (NewHandler (recording svc))
          { Method := "PUT", Path := Handler.base ++ "/" ++ seg, Body := body } id (s, []) := by
    rw [ServeHTTP_item lib _ "PUT" body seg _ hne hsep, hparse]
    simp
  have hdelete : Handler.ServeHTTP lib (NewHandler (recording svc))
        { Method := "DELETE", Path := Handler.base ++ "/" ++ seg, Body := body } (s, [])
      = Handler.handleDeleteFAQ (NewHandler (recording svc))
          { Method := "DELETE", Path := Handler.base ++ "/" ++ seg, Body := body } id (s, []) := by
    rw [ServeHTTP_item lib _ "DELETE" body seg _ hne hsep, hparse]
    simp
  refine ⟨?_, ?_, ⟨hGET, ?_⟩, ⟨hPOST, ?_⟩, ⟨hget, ?_⟩, ⟨hput, ?_⟩, ⟨hdelete, ?_⟩⟩
  · intro h1 h2 path hpath
    rw [ServeHTTP_collection lib _ method body path _ hpath]
    simp [h1, h2]
  · intro h1 h2 h3
    rw [ServeHTTP_item lib _ method body seg _ hne hsep, hparse]
    simp [h1, h2, h3]
  · rw [hGET, handleListFAQs_calls]
  · rw [hPOST, handleCreateFAQ_calls]
  · rw [hget, handleGetFAQ_calls]
  · rw [hput, handleUpdateFAQ_calls]
  · rw [hdelete, handleDeleteFAQ_calls]

/-- C6, at explicit requests: `PATCH` on the collection path and on the item
path of the identifier 42, and `DELETE` on that item path. -/
theorem C6_method_dispatch_witness :
    Handler.ServeHTTP fixtures.lib (NewHandler (recording fixtures.strictBackend))
        { Method := "PATCH", Path := "/api/v1/faqs", Body := "" } ((), [])
      = ({ contentType := "application/json; charset=utf-8", status := 405,
              body := Payload.ErrorResponse "method not allowed" }, ((), []))
    ∧ Handler.ServeHTTP fixtures.lib (NewHandler (recording fixtures.strictBackend))
        { Method := "PATCH",
          Path := Handler.base ++ "/" ++ "00000000-0000-0000-0000-00000000002a",
          Body := "" } ((), [])
      = ({ contentType := "application/json; charset=utf-8", status := 405,
              body := Payload.ErrorResponse "method not allowed" }, ((), []))
    ∧ (Handler.ServeHTTP fixtures.lib (NewHandler (recording fixtures.strictBackend))
        { Method := "DELETE",
          Path := Handler.base ++ "/" ++ "00000000-0000-0000-0000-00000000002a",
          Body := "" } ((), [])).2.2
      = [Call.Delete ⟨42⟩] :=
  ⟨(C6_method_dispatch fixtures.lib fixtures.strictBackend "PATCH" ""
      "00000000-0000-0000-0000-00000000002a" ⟨42⟩ () (by decide) (by decide) (by decide)).1
      (by decide) (by decide) _ (Or.inl rfl),
   (C6_method_dispatch fixtures.lib fixtures.strictBackend "PATCH" ""
      "00000000-0000-0000-0000-00000000002a" ⟨42⟩ () (by decide) (by decide) (by decide)).2.1
      (by decide) (by decide) (by decide),
   (C6_method_dispatch fixtures.lib fixtures.strictBackend "PATCH" ""
      "00000000-0000-0000-0000-00000000002a" ⟨42⟩ () (by decide) (by decide)
      (by decide)).2.2.2.2.2.2.2⟩

/-- C7: a service error that is neither not-found nor a validation failure is
answered, by each of the five handlers, with 500 and the body "internal error",
whatever the error holds; any two such errors therefore give the same response
(here through `writeServiceError`, and through every handler since each answer
is the same constant). The create and update handlers reach the service once
the body has decoded. -/
theorem C7_internal_errors_collapse {σ : Type} (lib : Lib) (svc : FAQOps σ) (r : http.Request)
    (id : uuid.UUID) (s s1 : σ) (e1 e2 : Error)
    (hnf1 : e1.IsNotFound = false) (hv1 : e1.AsValidation = none)
    (hnf2 : e2.IsNotFound = false) (hv2 : e2.AsValidation = none) :
    (svc.ListActive s = (Except.error e1, s1) →
        Handler.handleListFAQs (NewHandler svc) r s
          = ({ contentType := "application/json; charset=utf-8", status := 500,
               body := Payload.ErrorResponse "internal error" }, s1))
    ∧ (svc.GetByID id s = (Except.error e1, s1) →
        Handler.handleGetFAQ (NewHandler svc) r id s
          = ({ contentType := "application/json; charset=utf-8", status := 500,
               body := Payload.ErrorResponse "internal error" }, s1))
    ∧ (∀ req, decodeJSON lib.createJSON r = Except.ok req →
        svc.Create { Title := req.Title, Content := req.Content, Position := req.Position,
                     IsActive := req.IsActive.getD true } s = (Except.error e1, s1) →
        Handler.handleCreateFAQ lib (NewHandler svc) r s
          = ({ contentType := "application/json; charset=utf-8", status := 500,
               body := Payload.ErrorResponse "internal error" }, s1))
    ∧ (∀ req, decodeJSON lib.updateJSON r = Except.ok req →
        svc.Update id { Title := req.Title, Content := req.Content, Position := req.Position,
                        IsActive := req.IsActive.getD true } s = (Except.error e1, s1) →
        Handler.handleUpdateFAQ lib (NewHandler svc) r id s
          = ({ contentType := "application/json; charset=utf-8", status := 500,
               body := Payload.ErrorResponse "internal error" }, s1))
    ∧ (svc.Delete id s = (some e1, s1) →
        Handler.handleDeleteFAQ (NewHandler svc) r id s
          = ({ contentType := "application/json; charset=utf-8", status := 500,
               body := Payload.ErrorResponse "internal error" }, s1))
    ∧ writeServiceError e1 = { contentType := "application/json; charset=utf-8", status := 500,
                               body := Payload.ErrorResponse "internal error" }
    ∧ writeServiceError e1 = writeServiceError e2 := by
  rw [show ({ contentType := "application/json; charset=utf-8", status := 500,
              body := Payload.ErrorResponse "internal error" } : Response)
    = writeJSON 500 (Payload.ErrorResponse "internal error") from rfl]
  have hw : ∀ e : Error, e.IsNotFound = false → e.AsValidation = none →
      writeServiceError e = writeJSON 500 (Payload.ErrorResponse "internal error") := by
    intro e h1 h2
    simp [writeServiceError, h1, h2, http.StatusInternalServerError]
  refine ⟨?_, ?_, ?_, ?_, ?_, hw e1 hnf1 hv1, (hw e1 hnf1 hv1).trans (hw e2 hnf2 hv2).symm⟩
  · intro h
    simp [Handler.handleListFAQs, NewHandler, h, http.StatusInternalServerError]
  · intro h
    simp [Handler.handleGetFAQ, NewHandler, h, hnf1, http.StatusInternalServerError]
  · intro req hd h
    have hact : (match req.IsActive with | some b => b | none => true)
        = req.IsActive.getD true := by
      cases req.IsActive <;> rfl
    simp only [Handler.handleCreateFAQ, NewHandler, hd, hact, h, hw e1 hnf1 hv1]
  · intro req hd h
    have hact : (match req.IsActive with | some b => b | none => true)
        = req.IsActive.getD true := by
      cases req.IsActive <;> rfl
    simp only [Handler.handleUpdateFAQ, NewHandler, hd, hact, h, hw e1 hnf1 hv1]
  · intro h
    simp [Handler.handleDeleteFAQ, NewHandler, h, hnf1, http.StatusInternalServerError]

/-- C7, at explicit errors: a failed connection and a failed commit, wrapped as
the repository wraps them, both give the same 500 on a delete. -/
theorem C7_internal_errors_collapse_witness :
    Handler.handleDeleteFAQ (NewHandler fixtures.brokenBackend)
        { Method := "DELETE", Path := "/api/v1/faqs/00000000-0000-0000-0000-00000000002a",
          Body := "" } ⟨42⟩ ()
      = ({ contentType := "application/json; charset=utf-8", status := 500,
              body := Payload.ErrorResponse "internal error" }, ())
    ∧ writeServiceError (Error.Errorf "begin tx" (Error.Lib (LibError.New "connection refused")))
      = writeServiceError (Error.Errorf "commit tx" (Error.Lib (LibError.New "deadlock detected"))) :=
  ⟨(C7_internal_errors_collapse fixtures.lib fixtures.brokenBackend
      { Method := "DELETE", Path := "/api/v1/faqs/00000000-0000-0000-0000-00000000002a",
        Body := "" } ⟨42⟩ () ()
      (Error.Errorf "begin tx" (Error.Lib (LibError.New "connection refused")))
      (Error.Errorf "commit tx" (Error.Lib (LibError.New "deadlock detected")))
      (by decide) (by decide) (by decide) (by decide)).2.2.2.2.1 (by decide),
   (C7_internal_errors_collapse fixtures.lib fixtures.brokenBackend
      { Method := "DELETE", Path := "/api/v1/faqs/00000000-0000-0000-0000-00000000002a",
        Body := "" } ⟨42⟩ () ()
      (Error.Errorf "begin tx" (Error.Lib (LibError.New "connection refused")))
      (Error.Errorf "commit tx" (Error.Lib (LibError.New "deadlock detected")))
      (by decide) (by decide) (by decide) (by decide)).2.2.2.2.2.2⟩

/-- C8: once the request body has decoded, the create handler and the update
handler each call the service once, with the decoded title, content and
position unchanged and with `IsActive` true when the field is absent or null,
false when it is present and false, true when it is present and true. -/
theorem C8_is_active_default {σ : Type} (lib : Lib) (svc : FAQOps σ) (r : http.Request)
    (id : uuid.UUID) (s : σ) (req : CreateFAQRequest) (ureq : UpdateFAQRequest)
    (hcreate : decodeJSON lib.createJSON r = Except.ok req)
    (hupdate : decodeJSON lib.updateJSON r = Except.ok ureq) :
    (req.IsActive = none →
      (Handler.handleCreateFAQ lib (NewHandler (recording svc)) r (s, [])).2.2
        = [Call.Create { Title := req.Title, Content := req.Content, Position := req.Position,
                         IsActive := true }])
    ∧ (req.IsActive = some false →
      (Handler.handleCreateFAQ lib (NewHandler (recording svc)) r (s, [])).2.2
        = [Call.Create { Title := req.Title, Content := req.Content, Position := req.Position,
                         IsActive := false }])
    ∧ (req.IsActive = some true →
      (Handler.handleCreateFAQ lib (NewHandler (recording svc)) r (s, [])).2.2
        = [Call.Create { Title := req.Title, Content := req.Content, Position := req.Position,
                         IsActive := true }])
    ∧ (ureq.IsActive = none →
      (Handler.handleUpdateFAQ lib (NewHandler (recording svc)) r id (s, [])).2.2
        = [Call.Update id { Title := ureq.Title, Content := ureq.Content,
                            Position := ureq.Position, IsActive := true }])
    ∧ (ureq.IsActive = some false →
      (Handler.handleUpdateFAQ lib (NewHandler (recording svc)) r id (s, [])).2.2
        = [Call.Update id { Title := ureq.Title, Content := ureq.Content,
                            Position := ureq.Position, IsActive := false }])
    ∧ (ureq.IsActive = some true →
      (Handler.handleUpdateFAQ lib (NewHandler (recording svc)) r id (s, [])).2.2
        = [Call.Update id { Title := ureq.Title, Content := ureq.Content,
                            Position := ureq.Position, IsActive := true }]) := by
  rw [handleCreateFAQ_calls, handleUpdateFAQ_calls, hcreate, hupdate]
  refine ⟨?_, ?_, ?_, ?_, ?_, ?_⟩ <;> intro h <;> simp [h]

/-- C8, at explicit bodies: `is_active` absent, false and true. -/
theorem C8_is_active_default_witness :
    (Handler.handleCreateFAQ fixtures.lib (NewHandler (recording fixtures.strictBackend))
        { Method := "POST", Path := "/api/v1/faqs", Body := "" } ((), [])).2.2
      = [Call.Create { Title := "Q1", Content := "A1", Position := 1, IsActive := true }]
    ∧ (Handler.handleUpdateFAQ (fixtures.libOf (some false))
          (NewHandler (recording fixtures.strictBackend))
          { Method := "PUT", Path := "/api/v1/faqs/00000000-0000-0000-0000-00000000002a",
            Body := "" } ⟨42⟩ ((), [])).2.2
      = [Call.Update ⟨42⟩ { Title := "Q1", Content := "A1", Position := 1, IsActive := false }]
    ∧ (Handler.handleUpdateFAQ (fixtures.libOf (some true))
          (NewHandler (recording fixtures.strictBackend))
          { Method := "PUT", Path := "/api/v1/faqs/00000000-0000-0000-0000-00000000002a",
            Body := "" } ⟨42⟩ ((), [])).2.2
      = [Call.Update ⟨42⟩ { Title := "Q1", Content := "A1", Position := 1, IsActive := true }] :=
  ⟨(C8_is_active_default fixtures.lib fixtures.strictBackend
      { Method := "POST", Path := "/api/v1/faqs", Body := "" } ⟨42⟩ ()
      { Title := "Q1", Content := "A1", Position := 1, IsActive := none }
      { Title := "Q1", Content := "A1", Position := 1, IsActive := none }
      (by decide) (by decide)).1 rfl,
   (C8_is_active_default (fixtures.libOf (some false)) fixtures.strictBackend
      { Method := "PUT", Path := "/api/v1/faqs/00000000-0000-0000-0000-00000000002a",
        Body := "" } ⟨42⟩ ()
      { Title := "Q1", Content := "A1", Position := 1, IsActive := some false }
      { Title := "Q1", Content := "A1", Position := 1, IsActive := some false }
      (by decide) (by decide)).2.2.2.2.1 rfl,
   (C8_is_active_default (fixtures.libOf (some true)) fixtures.strictBackend
      { Method := "PUT", Path := "/api/v1/faqs/00000000-0000-0000-0000-00000000002a",
        Body := "" } ⟨42⟩ ()
      { Title := "Q1", Content := "A1", Position := 1, IsActive := some true }
      { Title := "Q1", Content := "A1", Position := 1, IsActive := some true }
      (by decide) (by decide)).2.2.2.2.2 rfl⟩

end Transport

section Storage

open domain

/-- What the loop of `ListActive` returns: the entities it was given, followed by
one entity per row, holding the parsed id and the title, content and position of
that row, with the other fields at their zero values. -/
theorem listLoop_ok (lib : uuid.Lib) (env : sql.Env) :
    ∀ (rows : List sql.Row) (acc res : List FAQ),
      repository.FAQRepository.listLoop lib env rows acc = Except.ok res →
      ∃ items, res = acc ++ items
        ∧ List.Forall₂ (fun (it : FAQ) (row : sql.Row) =>
            lib.Parse row.id = Except.ok it.ID ∧ it.Title = row.title
              ∧ it.Content = row.content ∧ it.Position = row.position
              ∧ it.IsActive = false ∧ it.CreatedAt = 0 ∧ it.UpdatedAt = 0) items rows := by
  intro rows
  induction rows with
  | nil =>
    intro acc res h
    simp only [repository.FAQRepository.listLoop, Except.ok.injEq] at h
    exact ⟨[], by simp [h], List.Forall₂.nil⟩
  | cons row rest ih =>
    intro acc res h
    unfold repository.FAQRepository.listLoop at h
    split at h
    · simp at h
    · split at h
      · simp at h
      · rename_i id hparse
        obtain ⟨items, hres, hall⟩ := ih _ _ h
        refine ⟨{ ID := id, Title := row.title, Content := row.content,
                  Position := row.position, IsActive := false, CreatedAt := 0,
                  UpdatedAt := 0 } :: items, ?_,
          List.Forall₂.cons ⟨hparse, rfl, rfl, rfl, rfl, rfl, rfl⟩ hall⟩
        rw [hres]
        simp

/-- A successful `ListActive` of the repository returns the result of its loop
over the active rows in position order. -/
theorem repository_ListActive_ok (lib : uuid.Lib) (env : sql.Env) (db : sql.DB)
    (items : List FAQ)
    (h : (repository.FAQRepository.ListActive lib env db).1 = Except.ok items) :
    repository.FAQRepository.listLoop lib env
      (sql.orderByPosition (db.faqs.filter (fun r => r.is_active))) [] = Except.ok items := by
  unfold repository.FAQRepository.ListActive at h
  split at h
  · simp at h
  · split at h
    · simp at h
    · rename_i out hloop
      split at h
      · simp at h
      · simp only [Except.ok.injEq] at h
        rw [hloop, h]

/-- Service `ListActive` returns what storage returns. -/
theorem service_ListActive_delegates {σ : Type} (repo : FAQOps σ) (s : σ) :
    service.FAQService.ListActive repo s = repo.ListActive s := by
  simp only [service.FAQService.ListActive]
  rcases h : repo.ListActive s with ⟨r, s1⟩
  cases r <;> rfl

/-- The rows selected by `ListActive` are in position order. -/
theorem orderByPosition_sorted (rows : List sql.Row) :
    List.Sorted (fun a b : sql.Row => a.position ≤ b.position) (sql.orderByPosition rows) := by
  haveI : IsTotal sql.Row (fun a b => a.position ≤ b.position) := ⟨fun a b => le_total _ _⟩
  haveI : IsTrans sql.Row (fun a b => a.position ≤ b.position) :=
    ⟨fun a b c hab hbc => le_trans hab hbc⟩
  exact List.sorted_insertionSort _ rows

/-- Every entity of a list read row by row has its row. -/
theorem forall₂_exists_row {R : FAQ → sql.Row → Prop} :
    ∀ (items : List FAQ) (rows : List sql.Row), List.Forall₂ R items rows →
      ∀ it ∈ items, ∃ row ∈ rows, R it row := by
  intro items rows hall
  induction hall with
  | nil => intro it hit; simp at hit
  | cons hab _ ih =>
    intro it hit
    rcases List.mem_cons.1 hit with rfl | hit
    · exact ⟨_, List.mem_cons_self _ _, hab⟩
    · obtain ⟨row, hrow, hR⟩ := ih it hit
      exact ⟨row, List.mem_cons_of_mem _ hrow, hR⟩

/-- Position order passes from the rows to the entities read from them. -/
theorem sorted_of_forall₂ {R : FAQ → sql.Row → Prop}
    (hR : ∀ it row, R it row → it.Position = row.position) :
    ∀ (items : List FAQ) (rows : List sql.Row), List.Forall₂ R items rows →
      List.Sorted (fun a b : sql.Row => a.position ≤ b.position) rows →
      List.Sorted (fun a b : FAQ => a.Position ≤ b.Position) items := by
  intro items rows hall
  induction hall with
  | nil => intro _; exact List.sorted_nil
  | cons hab htl ih =>
    intro hs
    rw [List.sorted_cons] at hs ⊢
    refine ⟨?_, ih hs.2⟩
    intro b hb
    obtain ⟨row2, hrow2, hRb⟩ := forall₂_exists_row _ _ htl b hb
    rw [hR _ _ hab, hR _ _ hRb]
    exact hs.1 _ hrow2

/-- C9 (counterexample): on a table that holds one row, stored with
`is_active = true`, `ListActive` returns one entity and its `IsActive` is false:
the statement selects and the loop fills the id, title, content and position
only. -/
theorem C9_listed_entity_is_active_false :
    (service.FAQService.ListActive
        (repository.NewFAQRepository fixtures.uuidLib fixtures.quietEnv)
        { faqs := [{ id := "00000000-0000-0000-0000-00000000002a", title := "Q1",
                     content := "A1", position := 1, is_active := true,
                     created_at := 1700000000, updated_at := 1700000000 }] }).1
      = Except.ok [{ ID := ⟨42⟩, Title := "Q1", Content := "A1", Position := 1,
                     IsActive := false, CreatedAt := 0, UpdatedAt := 0 }] := by
  decide

/-- C9 (amended): for every table, every entity in the sequence that
`ListActive` returns (the storage result, which the service passes through
unchanged) is read from a stored row whose `is_active` is true, of which it
holds the parsed id, the title, the content and the position, its own `IsActive`
being left false; there is one entity per active row; and the sequence is in
ascending order of position. -/
theorem C9_list_active_rows_sorted (lib : uuid.Lib) (env : sql.Env) (db : sql.DB)
    (items : List FAQ)
    (h : (service.FAQService.ListActive (repository.NewFAQRepository lib env) db).1
      = Except.ok items) :
    service.FAQService.ListActive (repository.NewFAQRepository lib env) db
        = repository.FAQRepository.ListActive lib env db
    ∧ (∀ it ∈ items, ∃ row ∈ db.faqs, row.is_active = true
        ∧ lib.Parse row.id = Except.ok it.ID ∧ it.Title = row.title
        ∧ it.Content = row.content ∧ it.Position = row.position ∧ it.IsActive = false)
    ∧ items.length = (db.faqs.filter (fun r => r.is_active)).length
    ∧ List.Sorted (fun a b : FAQ => a.Position ≤ b.Position) items := by
  have hdel := service_ListActive_delegates (repository.NewFAQRepository lib env) db
  rw [hdel] at h
  have hloop := repository_ListActive_ok lib env db items h
  obtain ⟨items2, hitems, hall⟩ := listLoop_ok lib env _ _ _ hloop
  simp only [List.nil_append] at hitems
  subst hitems
  refine ⟨hdel, ?_, ?_, ?_⟩
  · intro it hit
    obtain ⟨row, hrow, hp, ht, hc, hpos, hact, _, _⟩ := forall₂_exists_row _ _ hall it hit
    have hmem : row ∈ db.faqs.filter (fun r => r.is_active) := by
      unfold sql.orderByPosition at hrow
      exact (List.mem_insertionSort _).1 hrow
    rw [List.mem_filter] at hmem
    exact ⟨row, hmem.1, hmem.2, hp, ht, hc, hpos, hact⟩
  · rw [hall.length_eq]
    unfold sql.orderByPosition
    exact (List.perm_insertionSort _ _).length_eq
  · exact sorted_of_forall₂ (fun it row hR => hR.2.2.2.1) _ _ hall (orderByPosition_sorted _)

/-- C9 (amended), on an explicit table: two active rows stored out of order and
one inactive row. -/
theorem C9_list_active_rows_sorted_witness :
    List.Sorted (fun a b : FAQ => a.Position ≤ b.Position)
      [{ ID := ⟨2⟩, Title := "Q2", Content := "A2", Position := 1, IsActive := false,
         CreatedAt := 0, UpdatedAt := 0 },
       { ID := ⟨1⟩, Title := "Q1", Content := "A1", Position := 5, IsActive := false,
         CreatedAt := 0, UpdatedAt := 0 }] :=
  (C9_list_active_rows_sorted fixtures.uuidLib fixtures.quietEnv
    { faqs := [{ id := "00000000-0000-0000-0000-000000000001", title := "Q1", content := "A1",
                 position := 5, is_active := true, created_at := 10, updated_at := 10 },
               { id := "00000000-0000-0000-0000-000000000003", title := "Q3", content := "A3",
                 position := 2, is_active := false, created_at := 11, updated_at := 11 },
               { id := "00000000-0000-0000-0000-000000000002", title := "Q2", content := "A2",
                 position := 1, is_active := true, created_at := 12, updated_at := 12 }] }
    [{ ID := ⟨2⟩, Title := "Q2", Content := "A2", Position := 1, IsActive := false,
       CreatedAt := 0, UpdatedAt := 0 },
     { ID := ⟨1⟩, Title := "Q1", Content := "A1", Position := 5, IsActive := false,
       CreatedAt := 0, UpdatedAt := 0 }]
    (by decide)).2.2.2

/-- The table after the repository's `Create`: as before, or with the inserted row. -/
theorem repository_Create_state (lib : uuid.Lib) (env : sql.Env) (input : CreateFAQInput)
    (db : sql.DB) :
    (repository.FAQRepository.Create lib env input db).2 = db
    ∨ (repository.FAQRepository.Create lib env input db).2
        = { faqs := db.faqs ++ [repository.FAQRepository.insertedRow env input] } := by
  unfold repository.FAQRepository.Create
  split
  · exact Or.inl rfl
  · split
    · exact Or.inl rfl
    · dsimp only
      split
      · exact Or.inr rfl
      · split <;> exact Or.inr rfl

/-- The table after the repository's `Update`: as before, or with the matching
rows assigned. -/
theorem repository_Update_state (lib : uuid.Lib) (env : sql.Env) (id : uuid.UUID)
    (input : UpdateFAQInput) (db : sql.DB) :
    (repository.FAQRepository.Update lib env id input db).2 = db
    ∨ (repository.FAQRepository.Update lib env id input db).2
        = { faqs := db.faqs.map (fun r =>
              if r.id = lib.String id then repository.FAQRepository.updatedRow env input r
              else r) } := by
  unfold repository.FAQRepository.Update
  split
  · exact Or.inl rfl
  · split
    · exact Or.inl rfl
    · split
      · exact Or.inl rfl
      · dsimp only
        split
        · split_ifs <;> exact Or.inl rfl
        · split
          · exact Or.inl rfl
          · split
            · exact Or.inl rfl
            · exact Or.inr rfl

/-- The table after the repository's `Delete`: as before, or without the
matching rows. -/
theorem repository_Delete_state (lib : uuid.Lib) (env : sql.Env) (id : uuid.UUID)
    (db : sql.DB) :
    (repository.FAQRepository.Delete lib env id db).2 = db
    ∨ (repository.FAQRepository.Delete lib env id db).2
        = { faqs := db.faqs.filter (fun r => ¬ (r.id = lib.String id)) } := by
  unfold repository.FAQRepository.Delete
  split
  · exact Or.inl rfl
  · split
    · exact Or.inl rfl
    · dsimp only
      split
      · exact Or.inl rfl
      · split
        · exact Or.inl rfl
        · split
          · exact Or.inl rfl
          · exact Or.inr rfl

/-- A refused `Create` leaves the state of storage as it was. -/
theorem service_Create_refused {σ : Type} (repo : FAQOps σ) (input : CreateFAQInput) (s : σ)
    (err : Error)
    (hin : service.validateFAQInput input.Title input.Content input.Position = some err) :
    service.FAQService.Create repo input s = (Except.error err, s) := by
  simp only [service.FAQService.Create, hin]

/-- C10: with the table changed only through the service's create, update and
delete over the repository, if every stored row has a title and a content that
are not empty after trimming and a position of at least 1, then so has every
stored row after any of the three operations, whatever its outcome; and a create
or an update that the service refuses (a field empty after trimming, a position
at most 0, or for update the nil id) leaves the table unchanged. -/
theorem C10_persisted_rows_stay_valid (lib : uuid.Lib) (env : sql.Env) (db : sql.DB)
    (created : CreateFAQInput) (id : uuid.UUID) (updated : UpdateFAQInput)
    (hinv : ∀ row ∈ db.faqs, strings.TrimSpace row.title ≠ ""
      ∧ strings.TrimSpace row.content ≠ "" ∧ 1 ≤ row.position) :
    (∀ row ∈ (service.FAQService.Create (repository.NewFAQRepository lib env) created db).2.faqs,
        strings.TrimSpace row.title ≠ "" ∧ strings.TrimSpace row.content ≠ ""
          ∧ 1 ≤ row.position)
    ∧ (∀ row ∈ (service.FAQService.Update (repository.NewFAQRepository lib env) id updated
          db).2.faqs,
        strings.TrimSpace row.title ≠ "" ∧ strings.TrimSpace row.content ≠ ""
          ∧ 1 ≤ row.position)
    ∧ (∀ row ∈ (service.FAQService.Delete (repository.NewFAQRepository lib env) id db).2.faqs,
        strings.TrimSpace row.title ≠ "" ∧ strings.TrimSpace row.content ≠ ""
          ∧ 1 ≤ row.position)
    ∧ ((strings.TrimSpace created.Title = "" ∨ strings.TrimSpace created.Content = ""
          ∨ created.Position ≤ 0) →
        (service.FAQService.Create (repository.NewFAQRepository lib env) created db).2 = db)
    ∧ ((id = uuid.Nil ∨ strings.TrimSpace updated.Title = ""
          ∨ strings.TrimSpace updated.Content = "" ∨ updated.Position ≤ 0) →
        (service.FAQService.Update (repository.NewFAQRepository lib env) id updated db).2
          = db) := by
  have hfields : ∀ (t c : String) (p : Int), service.validateFAQInput t c p = none →
      strings.TrimSpace t ≠ "" ∧ strings.TrimSpace c ≠ "" ∧ 1 ≤ p := by
    intro t c p hv
    have h := (service_validate_none_iff t c p).1 hv
    push_neg at h
    exact ⟨h.1, h.2.1, by omega⟩
  refine ⟨?_, ?_, ?_, ?_, ?_⟩
  · cases hv : service.validateFAQInput created.Title created.Content created.Position with
    | some err =>
      rw [service_Create_refused _ _ _ err hv]
      exact hinv
    | none =>
      rw [service_Create_delegates _ _ _ hv]
      rcases repository_Create_state lib env created db with h | h
      · simp only [repository.NewFAQRepository, h]
        exact hinv
      · simp only [repository.NewFAQRepository, h]
        intro row hrow
        rcases List.mem_append.1 hrow with hrow | hrow
        · exact hinv row hrow
        · rw [List.mem_singleton] at hrow
          subst hrow
          exact hfields _ _ _ hv
  · by_cases hid : id = uuid.Nil
    · subst hid
      rw [service_Update_nil]
      exact hinv
    · cases hv : service.validateFAQInput updated.Title updated.Content updated.Position with
      | some err =>
        rw [service_Update_refused _ _ _ _ hid err hv]
        exact hinv
      | none =>
        rw [service_Update_delegates _ _ _ _ hid hv]
        rcases repository_Update_state lib env id updated db with h | h
        · simp only [repository.NewFAQRepository, h]
          exact hinv
        · simp only [repository.NewFAQRepository, h]
          intro row hrow
          obtain ⟨old, hold, rfl⟩ := List.mem_map.1 hrow
          split_ifs
          · exact hfields _ _ _ hv
          · exact hinv old hold
  · by_cases hid : id = uuid.Nil
    · subst hid
      rw [service_Delete_nil]
      exact hinv
    · rw [service_Delete_delegates _ _ _ hid]
      rcases repository_Delete_state lib env id db with h | h
      · simp only [repository.NewFAQRepository, h]
        exact hinv
      · simp only [repository.NewFAQRepository, h]
        intro row hrow
        exact hinv row (List.mem_filter.1 hrow).1
  · intro hrej
    cases hv : service.validateFAQInput created.Title created.Content created.Position with
    | some err => rw [service_Create_refused _ _ _ err hv]
    | none => exact absurd hrej ((service_validate_none_iff _ _ _).1 hv)
  · intro hrej
    by_cases hid : id = uuid.Nil
    · subst hid
      rw [service_Update_nil]
    · cases hv : service.validateFAQInput updated.Title updated.Content updated.Position with
      | some err => rw [service_Update_refused _ _ _ _ hid err hv]
      | none =>
        rcases hrej with h | h
        · exact absurd h hid
        · exact absurd h ((service_validate_none_iff _ _ _).1 hv)

/-- C10, on an explicit table of one valid row: a create of ("Q2", "A2", 2)
stores a second valid row, and an update to a blank title is refused and leaves
the table as it was. -/
theorem C10_persisted_rows_stay_valid_witness :
    (∀ row ∈ (service.FAQService.Create
          (repository.NewFAQRepository fixtures.uuidLib fixtures.quietEnv)
          { Title := "Q2", Content := "A2", Position := 2, IsActive := true }
          fixtures.oneRow).2.faqs,
        strings.TrimSpace row.title ≠ "" ∧ strings.TrimSpace row.content ≠ ""
          ∧ 1 ≤ row.position)
    ∧ (service.FAQService.Update
          (repository.NewFAQRepository fixtures.uuidLib fixtures.quietEnv) ⟨1⟩
          { Title := "  ", Content := "A", Position := 1, IsActive := true }
          fixtures.oneRow).2 = fixtures.oneRow :=
  ⟨(C10_persisted_rows_stay_valid fixtures.uuidLib fixtures.quietEnv fixtures.oneRow
      { Title := "Q2", Content := "A2", Position := 2, IsActive := true } ⟨1⟩
      { Title := "  ", Content := "A", Position := 1, IsActive := true }
      (by decide)).1,
   (C10_persisted_rows_stay_valid fixtures.uuidLib fixtures.quietEnv fixtures.oneRow
      { Title := "Q2", Content := "A2", Position := 2, IsActive := true } ⟨1⟩
      { Title := "  ", Content := "A", Position := 1, IsActive := true }
      (by decide)).2.2.2.2 (by decide)⟩

end Storage

section Delete

open domain api

/-- With a non-nil id and no failing step, the repository's `Delete` returns no
error and commits the table without the matching rows, whatever their number. -/
theorem repository_Delete_ok (lib : uuid.Lib) (env : sql.Env) (id : uuid.UUID) (db : sql.DB)
    (hid : id ≠ uuid.Nil) (hbegin : env.beginErr = none) (hexec : env.queryErr = none)
    (hrows : env.rowsAffectedErr = none) (hcommit : env.commitErr = none) :
    repository.FAQRepository.Delete lib env id db
      = (none, { faqs := db.faqs.filter (fun r => ¬ (r.id = lib.String id)) }) := by
  simp only [repository.FAQRepository.Delete, repository.validateFAQID, if_neg hid, hbegin,
    hexec, hrows, hcommit]

/-- C11: for every non-nil id and every table, hence every number of rows the
`DELETE` affects, if the begin, exec, rows-affected and commit steps do not fail
then the repository's `Delete` returns no error, the service's `Delete` returns
no error, and the delete handler, also when reached through `ServeHTTP`, answers
200 with the message "FAQ deleted successfully". The table is left without the
rows of that id, so a second delete of the same id affects no row, and it
succeeds with the same answer. -/
theorem C11_delete_reports_success (lib : Lib) (env env2 : sql.Env) (id : uuid.UUID)
    (db : sql.DB) (body seg : String)
    (hid : id ≠ uuid.Nil)
    (hbegin : env.beginErr = none) (hexec : env.queryErr = none)
    (hrows : env.rowsAffectedErr = none) (hcommit : env.commitErr = none)
    (hbegin2 : env2.beginErr = none) (hexec2 : env2.queryErr = none)
    (hrows2 : env2.rowsAffectedErr = none) (hcommit2 : env2.commitErr = none)
    (hne : seg ≠ "") (hsep : strings.Contains seg "/" = false)
    (hparse : lib.uuid.Parse seg = Except.ok id) :
    (repository.FAQRepository.Delete lib.uuid env id db).1 = none
    ∧ (service.FAQService.Delete (repository.NewFAQRepository lib.uuid env) id db).1 = none
    ∧ Handler.handleDeleteFAQ
          (NewHandler (service.NewFAQService (repository.NewFAQRepository lib.uuid env)))
          { Method := "DELETE", Path := Handler.base ++ "/" ++ seg, Body := body } id db
        = ({ contentType := "application/json; charset=utf-8", status := 200,
             body := Payload.MessageResponse "FAQ deleted successfully" },
            { faqs := db.faqs.filter (fun r => ¬ (r.id = lib.uuid.String id)) })
    ∧ Handler.ServeHTTP lib
          (NewHandler (service.NewFAQService (repository.NewFAQRepository lib.uuid env)))
          { Method := "DELETE", Path := Handler.base ++ "/" ++ seg, Body := body } db
        = ({ contentType := "application/json; charset=utf-8", status := 200,
             body := Payload.MessageResponse "FAQ deleted successfully" },
            { faqs := db.faqs.filter (fun r => ¬ (r.id = lib.uuid.String id)) })
    ∧ ((db.faqs.filter (fun r => ¬ (r.id = lib.uuid.String id))).filter
          (fun r => r.id = lib.uuid.String id)).length = 0
    ∧ Handler.ServeHTTP lib
          (NewHandler (service.NewFAQService (repository.NewFAQRepository lib.uuid env2)))
          { Method := "DELETE", Path := Handler.base ++ "/" ++ seg, Body := body }
          (Handler.ServeHTTP lib
            (NewHandler (service.NewFAQService (repository.NewFAQRepository lib.uuid env)))
            { Method := "DELETE", Path := Handler.base ++ "/" ++ seg, Body := body } db).2
        = ({ contentType := "application/json; charset=utf-8", status := 200,
             body := Payload.MessageResponse "FAQ deleted successfully" },
            { faqs := db.faqs.filter (fun r => ¬ (r.id = lib.uuid.String id)) }) := by
  rw [show ({ contentType := "application/json; charset=utf-8", status := 200,
              body := Payload.MessageResponse "FAQ deleted successfully" } : Response)
    = writeJSON 200 (Payload.MessageResponse "FAQ deleted successfully") from rfl]
  have hsvc : ∀ (e : sql.Env) (d : sql.DB), e.beginErr = none → e.queryErr = none →
      e.rowsAffectedErr = none → e.commitErr = none →
      service.FAQService.Delete (repository.NewFAQRepository lib.uuid e) id d
        = (none, { faqs := d.faqs.filter (fun r => ¬ (r.id = lib.uuid.String id)) }) := by
    intro e d h1 h2 h3 h4
    rw [service_Delete_delegates _ _ _ hid]
    exact repository_Delete_ok lib.uuid e id d hid h1 h2 h3 h4
  have hhandler : ∀ (e : sql.Env) (d : sql.DB) (r : http.Request), e.beginErr = none →
      e.queryErr = none → e.rowsAffectedErr = none → e.commitErr = none →
      Handler.handleDeleteFAQ
          (NewHandler (service.NewFAQService (repository.NewFAQRepository lib.uuid e))) r id d
        = (writeJSON 200 (Payload.MessageResponse "FAQ deleted successfully"),
            { faqs := d.faqs.filter (fun r => ¬ (r.id = lib.uuid.String id)) }) := by
    intro e d r h1 h2 h3 h4
    simp only [Handler.handleDeleteFAQ, NewHandler, service.NewFAQService, hsvc e d h1 h2 h3 h4,
      http.StatusOK]
  have hserve : ∀ (e : sql.Env) (d : sql.DB), e.beginErr = none →
      e.queryErr = none → e.rowsAffectedErr = none → e.commitErr = none →
      Handler.ServeHTTP lib
          (NewHandler (service.NewFAQService (repository.NewFAQRepository lib.uuid e)))
          { Method := "DELETE", Path := Handler.base ++ "/" ++ seg, Body := body } d
        = (writeJSON 200 (Payload.MessageResponse "FAQ deleted successfully"),
            { faqs := d.faqs.filter (fun r => ¬ (r.id = lib.uuid.String id)) }) := by
    intro e d h1 h2 h3 h4
    rw [ServeHTTP_item lib _ "DELETE" body seg _ hne hsep, hparse]
    simp only [if_neg (by decide : ¬ ("DELETE" = "GET")), if_neg (by decide : ¬ ("DELETE" = "PUT")),
      if_true]
    exact hhandler e d _ h1 h2 h3 h4
  refine ⟨?_, ?_, hhandler env db _ hbegin hexec hrows hcommit,
    hserve env db hbegin hexec hrows hcommit, ?_, ?_⟩
  · rw [repository_Delete_ok lib.uuid env id db hid hbegin hexec hrows hcommit]
  · rw [hsvc env db hbegin hexec hrows hcommit]
  · simp [List.filter_filter]
  · rw [hserve env db hbegin hexec hrows hcommit, hserve env2 _ hbegin2 hexec2 hrows2 hcommit2]
    simp [List.filter_filter]

/-- C11, on an explicit table: `DELETE /api/v1/faqs/00000000-0000-0000-0000-000000000001`
on the table that holds that row answers 200 and empties the table, and the same
request on the emptied table answers 200 again. -/
theorem C11_delete_reports_success_witness :
    Handler.ServeHTTP fixtures.lib
        (NewHandler (service.NewFAQService
          (repository.NewFAQRepository fixtures.lib.uuid fixtures.quietEnv)))
        { Method := "DELETE",
          Path := Handler.base ++ "/" ++ "00000000-0000-0000-0000-000000000001", Body := "" }
        fixtures.oneRow
      = ({ contentType := "application/json; charset=utf-8", status := 200,
              body := Payload.MessageResponse "FAQ deleted successfully" }, { faqs := [] })
    ∧ Handler.ServeHTTP fixtures.lib
        (NewHandler (service.NewFAQService
          (repository.NewFAQRepository fixtures.lib.uuid fixtures.quietEnv)))
        { Method := "DELETE",
          Path := Handler.base ++ "/" ++ "00000000-0000-0000-0000-000000000001", Body := "" }
        { faqs := [] }
      = ({ contentType := "application/json; charset=utf-8", status := 200,
              body := Payload.MessageResponse "FAQ deleted successfully" }, { faqs := [] }) :=
  ⟨(C11_delete_reports_success fixtures.lib fixtures.quietEnv fixtures.quietEnv ⟨1⟩
      fixtures.oneRow "" "00000000-0000-0000-0000-000000000001" (by decide) rfl rfl rfl rfl
      rfl rfl rfl rfl (by decide) (by decide) (by decide)).2.2.2.1,
   (C11_delete_reports_success fixtures.lib fixtures.quietEnv fixtures.quietEnv ⟨1⟩
      { faqs := [] } "" "00000000-0000-0000-0000-000000000001" (by decide) rfl rfl rfl rfl
      rfl rfl rfl rfl (by decide) (by decide) (by decide)).2.2.2.1⟩

end Delete

section Validators

open domain

/-- C12: the validator of the service and the validator of the repository
return the same result on every title, content and position: the same failure
with the same message, the title checked first, then the content, then the
position. The id check of the repository, "id is required" exactly on the nil
id, is the check the service makes before `GetByID`, `Update` and `Delete`.
Consequently, for every backend, each service operation either makes no storage
call or makes the one call it stands for with arguments on which the
repository's own validators pass. -/
theorem C12_validators_agree {σ : Type} (repo : FAQOps σ) (title content : String)
    (position : Int) (id : uuid.UUID) (created : CreateFAQInput) (updated : UpdateFAQInput)
    (s : σ) :
    repository.validateFAQInput title content position
        = service.validateFAQInput title content position
    ∧ service.validateFAQInput title content position
        = (if strings.TrimSpace title = "" then
            some (Error.ValidationError "title is required")
          else if strings.TrimSpace content = "" then
            some (Error.ValidationError "content is required")
          else if position ≤ 0 then
            some (Error.ValidationError "position must be greater than 0")
          else none)
    ∧ repository.validateFAQID id
        = (if id = uuid.Nil then some (Error.ValidationError "id is required") else none)
    ∧ service.FAQService.GetByID repo id s
        = (match repository.validateFAQID id with
          | some err => (Except.error err, s)
          | none => repo.GetByID id s)
    ∧ service.FAQService.Delete repo id s
        = (match repository.validateFAQID id with
          | some err => (some err, s)
          | none => repo.Delete id s)
    ∧ service.FAQService.Update repo id updated s
        = (match repository.validateFAQID id with
          | some err => (Except.error err, s)
          | none =>
            match repository.validateFAQInput updated.Title updated.Content
                updated.Position with
            | some err => (Except.error err, s)
            | none => repo.Update id updated s)
    ∧ service.FAQService.Create repo created s
        = (match repository.validateFAQInput created.Title created.Content
              created.Position with
          | some err => (Except.error err, s)
          | none => repo.Create created s)
    ∧ ((service.FAQService.GetByID (recording repo) id (s, [])).2.2 = []
        ∨ ((service.FAQService.GetByID (recording repo) id (s, [])).2.2 = [Call.GetByID id]
          ∧ repository.validateFAQID id = none))
    ∧ ((service.FAQService.Create (recording repo) created (s, [])).2.2 = []
        ∨ ((service.FAQService.Create (recording repo) created (s, [])).2.2
              = [Call.Create created]
          ∧ repository.validateFAQInput created.Title created.Content created.Position
              = none))
    ∧ ((service.FAQService.Update (recording repo) id updated (s, [])).2.2 = []
        ∨ ((service.FAQService.Update (recording repo) id updated (s, [])).2.2
              = [Call.Update id updated]
          ∧ repository.validateFAQID id = none
          ∧ repository.validateFAQInput updated.Title updated.Content updated.Position
              = none))
    ∧ ((service.FAQService.Delete (recording repo) id (s, [])).2.2 = []
        ∨ ((service.FAQService.Delete (recording repo) id (s, [])).2.2 = [Call.Delete id]
          ∧ repository.validateFAQID id = none)) := by
  have hidnone : id ≠ uuid.Nil → repository.validateFAQID id = none := by
    intro hid
    simp [repository.validateFAQID, hid]
  refine ⟨rfl, rfl, rfl, ?_, ?_, ?_, ?_, ?_, ?_, ?_, ?_⟩
  · by_cases hid : id = uuid.Nil
    · subst hid
      rw [service_GetByID_nil]
      rfl
    · rw [service_GetByID_delegates _ _ _ hid, hidnone hid]
  · by_cases hid : id = uuid.Nil
    · subst hid
      rw [service_Delete_nil]
      rfl
    · rw [service_Delete_delegates _ _ _ hid, hidnone hid]
  · by_cases hid : id = uuid.Nil
    · subst hid
      rw [service_Update_nil]
      rfl
    · rw [hidnone hid, repository_validate_eq]
      cases hv : service.validateFAQInput updated.Title updated.Content updated.Position with
      | some err => rw [service_Update_refused _ _ _ _ hid err hv]
      | none => rw [service_Update_delegates _ _ _ _ hid hv]
  · rw [repository_validate_eq]
    cases hv : service.validateFAQInput created.Title created.Content created.Position with
    | some err => rw [service_Create_refused _ _ _ err hv]
    | none => rw [service_Create_delegates _ _ _ hv]
  · by_cases hid : id = uuid.Nil
    · subst hid
      rw [service_GetByID_nil]
      exact Or.inl rfl
    · rw [service_GetByID_delegates _ _ _ hid]
      exact Or.inr ⟨rfl, hidnone hid⟩
  · cases hv : service.validateFAQInput created.Title created.Content created.Position with
    | some err =>
      rw [service_Create_refused _ _ _ err hv]
      exact Or.inl rfl
    | none =>
      rw [service_Create_delegates _ _ _ hv]
      exact Or.inr ⟨rfl, (repository_validate_eq _ _ _).trans hv⟩
  · by_cases hid : id = uuid.Nil
    · subst hid
      rw [service_Update_nil]
      exact Or.inl rfl
    · cases hv : service.validateFAQInput updated.Title updated.Content updated.Position with
      | some err =>
        rw [service_Update_refused _ _ _ _ hid err hv]
        exact Or.inl rfl
      | none =>
        rw [service_Update_delegates _ _ _ _ hid hv]
        exact Or.inr ⟨rfl, hidnone hid, (repository_validate_eq _ _ _).trans hv⟩
  · by_cases hid : id = uuid.Nil
    · subst hid
      rw [service_Delete_nil]
      exact Or.inl rfl
    · rw [service_Delete_delegates _ _ _ hid]
      exact Or.inr ⟨rfl, hidnone hid⟩

end Validators
